import Mathlib

/-!
Verification of the Incident Investigation & Deduplication Engine
(`app/ops/service.py` of the DecisionDoc-AI repository).

Shallow embedding conventions:
* Python strings are Lean `String`s; the character-level operations
  (`str.replace`, `str.strip`, `str.lower`, `re.sub`) are modelled on
  `List Char`.  Whitespace and case handling are modelled at the ASCII
  level used by the reason strings of the service.
* Timestamps are modelled at whole-second granularity as `Int` epoch
  seconds.  `_iso_utc` (which drops microseconds) composed with
  `_parse_iso_utc` is the identity at this granularity, so a stored
  `updated_at` / `last_update_at` field is modelled as `Option Int`
  (`none` = the string field is missing or unparsable).
* Environment-variable configuration (`_env_int`, prefixes, identifiers)
  is modelled as an explicit `Config` record passed to the service,
  with the env values already stripped.
* The object store, the CloudWatch metrics backend, the logs backend and
  the statuspage notifier are external collaborators; their responses are
  inputs of the embedded `investigate`, and the writes / external calls it
  performs are returned in an explicit `Effects` record.
-/

/-! ## Characters and Python-style string operations -/

/-- The whitespace characters recognised by `str.strip` / `\s` (ASCII part):
space, tab, newline, carriage return, vertical tab, form feed. -/
def isPySpace (c : Char) : Bool :=
  c.toNat = 32 || c.toNat = 9 || c.toNat = 10 || c.toNat = 13 ||
  c.toNat = 11 || c.toNat = 12

/-- The storage-safe character class of `_sanitize_reason_for_storage`:
`[a-z0-9 .,:;!?()/_-]`. -/
def isAllowedChar (c : Char) : Bool :=
  (97 ≤ c.toNat && c.toNat ≤ 122) || (48 ≤ c.toNat && c.toNat ≤ 57) ||
  c.toNat = 32 || c.toNat = 46 || c.toNat = 44 || c.toNat = 58 ||
  c.toNat = 59 || c.toNat = 33 || c.toNat = 63 || c.toNat = 40 ||
  c.toNat = 41 || c.toNat = 47 || c.toNat = 95 || c.toNat = 45

/-- `reason.replace("\r", " ").replace("\n", " ")` acting on one character. -/
def crlfToSpace (c : Char) : Char :=
  if c.toNat = 13 then ' ' else if c.toNat = 10 then ' ' else c

/-- `str.lower` on the ASCII range (the only case mapping the service's
reason strings exercise): `A`-`Z` shifted to `a`-`z`. -/
def lowerChar (c : Char) : Char :=
  if 65 ≤ c.toNat && c.toNat ≤ 90 then Char.ofNat (c.toNat + 32) else c

/-- `str.strip()`: drop leading and trailing whitespace. -/
def pyStrip (l : List Char) : List Char :=
  ((l.dropWhile isPySpace).reverse.dropWhile isPySpace).reverse

/-- `re.sub(r"\s+", " ", text)`: every maximal run of whitespace becomes a
single space. -/
def collapseWs : List Char → List Char
  | [] => []
  | [c] => if isPySpace c then [' '] else [c]
  | c :: d :: rest =>
      if isPySpace c then
        if isPySpace d then collapseWs (d :: rest)
        else ' ' :: collapseWs (d :: rest)
      else c :: collapseWs (d :: rest)

/-- `re.sub(r"[^a-z0-9 .,:;!?()/_-]+", " ", text)`: every maximal run of
characters outside the storage-safe class becomes a single space. -/
def replaceBadRuns : List Char → List Char
  | [] => []
  | [c] => if isAllowedChar c then [c] else [' ']
  | c :: d :: rest =>
      if isAllowedChar c then c :: replaceBadRuns (d :: rest)
      else
        if isAllowedChar d then ' ' :: replaceBadRuns (d :: rest)
        else replaceBadRuns (d :: rest)

/-- `if len(text) > 80: text = text[:80]`. -/
def trunc80 (l : List Char) : List Char :=
  if l.length > 80 then l.take 80 else l

/-- `_normalize_reason_for_key`, list level: replace CR/LF by spaces, strip,
lowercase, collapse whitespace runs, cap at 80 characters. -/
def normalizeList (l : List Char) : List Char :=
  trunc80 (collapseWs ((pyStrip (l.map crlfToSpace)).map lowerChar))

/-- `_sanitize_reason_for_storage`, list level: normalize, replace runs of
disallowed characters by spaces, collapse whitespace, strip, cap at 80. -/
def sanitizeList (l : List Char) : List Char :=
  trunc80 (pyStrip (collapseWs (replaceBadRuns (normalizeList l))))

/-- `_normalize_reason_for_key(reason)`. -/
def normalizeReasonForKey (reason : String) : String :=
  ⟨normalizeList reason.data⟩

/-- `_sanitize_reason_for_storage(reason)`. -/
def sanitizeReasonForStorage (reason : String) : String :=
  ⟨sanitizeList reason.data⟩

/-! ## SHA-256 (the cryptographic digest used by `_build_incident_key`),
implemented over `Nat` with explicit reduction mod `2^32`. -/

def w32 (n : Nat) : Nat := n % 4294967296

def rotr32 (k x : Nat) : Nat := w32 ((x >>> k) ||| (x <<< (32 - k)))

def shr32 (k x : Nat) : Nat := x >>> k

def sha256K : List Nat :=
  [1116352408, 1899447441, 3049323471, 3921009573, 961987163, 1508970993,
   2453635748, 2870763221, 3624381080, 310598401, 607225278, 1426881987,
   1925078388, 2162078206, 2614888103, 3248222580, 3835390401, 4022224774,
   264347078, 604807628, 770255983, 1249150122, 1555081692, 1996064986,
   2554220882, 2821834349, 2952996808, 3210313671, 3336571891, 3584528711,
   113926993, 338241895, 666307205, 773529912, 1294757372, 1396182291,
   1695183700, 1986661051, 2177026350, 2456956037, 2730485921, 2820302411,
   3259730800, 3345764771, 3516065817, 3600352804, 4094571909, 275423344,
   430227734, 506948616, 659060556, 883997877, 958139571, 1322822218,
   1537002063, 1747873779, 1955562222, 2024104815, 2227730452, 2361852424,
   2428436474, 2756734187, 3204031479, 3329325298]

def sha256H0 : List Nat :=
  [1779033703, 3144134277, 1013904242, 2773480762,
   1359893119, 2600822924, 528734635, 1541459225]

/-- Big-endian byte expansion of a value, given a byte count. -/
def beBytes : Nat → Nat → List Nat
  | 0, _ => []
  | k + 1, v => beBytes k (v / 256) ++ [v % 256]

def sha256Pad (msg : List Nat) : List Nat :=
  let L := msg.length
  let padZeros := (55 + 64 - L % 64) % 64
  msg ++ [0x80] ++ List.replicate padZeros 0 ++ beBytes 8 (8 * L)

def chunks64Aux : Nat → List Nat → List (List Nat)
  | 0, _ => []
  | _, [] => []
  | fuel + 1, l => l.take 64 :: chunks64Aux fuel (l.drop 64)

def chunks64 (l : List Nat) : List (List Nat) := chunks64Aux l.length l

/-- The 16 big-endian 32-bit words of a 64-byte block. -/
def blockWordsAux : Nat → List Nat → List Nat
  | 0, _ => []
  | _, [] => []
  | fuel + 1, l =>
      (((l.getD 0 0 * 256 + l.getD 1 0) * 256 + l.getD 2 0) * 256 + l.getD 3 0)
        :: blockWordsAux fuel (l.drop 4)

def blockWords (l : List Nat) : List Nat := blockWordsAux l.length l

def nextW (acc : List Nat) : Nat :=
  let n := acc.length
  let w15 := acc.getD (n - 15) 0
  let w2 := acc.getD (n - 2) 0
  let s0 := w32 ((rotr32 7 w15) ^^^ (rotr32 18 w15) ^^^ (shr32 3 w15))
  let s1 := w32 ((rotr32 17 w2) ^^^ (rotr32 19 w2) ^^^ (shr32 10 w2))
  w32 (acc.getD (n - 16) 0 + s0 + acc.getD (n - 7) 0 + s1)

def schedule (ws : List Nat) : List Nat :=
  (List.range 48).foldl (fun acc _ => acc ++ [nextW acc]) ws

def sha256Round (st : List Nat) (wi ki : Nat) : List Nat :=
  let a := st.getD 0 0; let b := st.getD 1 0; let c := st.getD 2 0; let d := st.getD 3 0
  let e := st.getD 4 0; let f := st.getD 5 0; let g := st.getD 6 0; let h := st.getD 7 0
  let S1 := w32 ((rotr32 6 e) ^^^ (rotr32 11 e) ^^^ (rotr32 25 e))
  let ch := w32 ((e &&& f) ^^^ ((4294967295 - e) &&& g))
  let temp1 := w32 (h + S1 + ch + ki + wi)
  let S0 := w32 ((rotr32 2 a) ^^^ (rotr32 13 a) ^^^ (rotr32 22 a))
  let maj := w32 ((a &&& b) ^^^ (a &&& c) ^^^ (b &&& c))
  let temp2 := w32 (S0 + maj)
  [w32 (temp1 + temp2), a, b, c, w32 (d + temp1), e, f, g]

def compressBlock (hs : List Nat) (block : List Nat) : List Nat :=
  let ws := schedule (blockWords block)
  let st := (ws.zip sha256K).foldl (fun st p => sha256Round st p.1 p.2) hs
  (hs.zip st).map (fun p => w32 (p.1 + p.2))

def sha256Bytes (msg : List Nat) : List Nat :=
  let hs := (chunks64 (sha256Pad msg)).foldl compressBlock sha256H0
  hs.foldr (fun h acc => beBytes 4 h ++ acc) []

def hexNibble (n : Nat) : Char :=
  if n < 10 then Char.ofNat (48 + n) else Char.ofNat (87 + n)

def byteHex (b : Nat) : List Char := [hexNibble (b / 16), hexNibble (b % 16)]

/-- UTF-8 encoding of one character (`str.encode("utf-8")`). -/
def utf8Bytes (c : Char) : List Nat :=
  let n := c.toNat
  if n < 128 then [n]
  else if n < 2048 then [192 ||| (n >>> 6), 128 ||| (n &&& 63)]
  else if n < 65536 then
    [224 ||| (n >>> 12), 128 ||| ((n >>> 6) &&& 63), 128 ||| (n &&& 63)]
  else
    [240 ||| (n >>> 18), 128 ||| ((n >>> 12) &&& 63), 128 ||| ((n >>> 6) &&& 63), 128 ||| (n &&& 63)]

def strUtf8 (s : String) : List Nat := (s.data.map utf8Bytes).flatten

/-- `hashlib.sha256(material.encode("utf-8")).hexdigest()`. -/
def sha256Hex (s : String) : String :=
  ⟨((sha256Bytes (strUtf8 s)).map byteHex).flatten⟩

/-- Python string slicing `s[:n]`. -/
def strTake (s : String) (n : Nat) : String := ⟨s.data.take n⟩

/-! ## `_build_incident_key` -/

/-- `OpsInvestigationService._build_incident_key`:
`bucket = int(now.timestamp()) // bucket_seconds` (Python floor division,
`Int.fdiv` here), `material = f"{stage}|{window_minutes}|{bucket}|{reason_norm}"`,
key = `"inc-"` + first 12 hex chars of the SHA-256 digest of `material`. -/
def buildIncidentKey (stage : String) (window_minutes : Int) (reason_norm : String)
    (now : Int) (bucket_seconds : Int) : String :=
  let bucket := Int.fdiv now bucket_seconds
  let material := stage ++ "|" ++ toString window_minutes ++ "|" ++ toString bucket
    ++ "|" ++ reason_norm
  "inc-" ++ strTake (sha256Hex material) 12

/-! ## Reason-normalizer lemmas (purity, idempotence, storage-safety) -/

/-- No two adjacent whitespace characters. -/
def noAdjWs : List Char → Bool
  | [] => true
  | [_] => true
  | a :: b :: rest => (!(isPySpace a && isPySpace b)) && noAdjWs (b :: rest)

theorem char_eq_of_toNat_eq {c d : Char} (h : c.toNat = d.toNat) : c = d := by
  calc c = Char.ofNat c.toNat := (Char.ofNat_toNat c).symm
    _ = Char.ofNat d.toNat := by rw [h]
    _ = d := Char.ofNat_toNat d

theorem space_of_allowed_pySpace {c : Char} (ha : isAllowedChar c = true)
    (hs : isPySpace c = true) : c = ' ' := by
  simp only [isAllowedChar, isPySpace, Bool.or_eq_true, Bool.and_eq_true,
    decide_eq_true_eq] at ha hs
  have h32 : c.toNat = 32 := by omega
  exact char_eq_of_toNat_eq h32

theorem isPySpace_space : isPySpace ' ' = true := by decide

theorem isAllowedChar_space : isAllowedChar ' ' = true := by decide

theorem crlfToSpace_eq_self {c : Char} (h : isAllowedChar c = true) : crlfToSpace c = c := by
  simp only [isAllowedChar, Bool.or_eq_true, Bool.and_eq_true, decide_eq_true_eq] at h
  unfold crlfToSpace
  rw [if_neg (by omega), if_neg (by omega)]

theorem lowerChar_eq_self {c : Char} (h : isAllowedChar c = true) : lowerChar c = c := by
  simp only [isAllowedChar, Bool.or_eq_true, Bool.and_eq_true, decide_eq_true_eq] at h
  unfold lowerChar
  rw [if_neg (by simp only [Bool.and_eq_true, decide_eq_true_eq]; omega)]

/-! membership and length facts -/

theorem replaceBadRuns_allowed : ∀ l, ∀ c ∈ replaceBadRuns l, isAllowedChar c = true := by
  intro l
  induction l using replaceBadRuns.induct with
  | case1 => simp [replaceBadRuns]
  | case2 c h => simp_all [replaceBadRuns]
  | case3 c h => simp_all [replaceBadRuns]; decide
  | case4 c d rest h ih => simp_all [replaceBadRuns]
  | case5 c d rest h h2 ih =>
      simp_all [replaceBadRuns]
      exact isAllowedChar_space
  | case6 c d rest h h2 ih => simp_all [replaceBadRuns]

theorem collapseWs_mem : ∀ l, ∀ c ∈ collapseWs l, c = ' ' ∨ c ∈ l := by
  intro l
  induction l using collapseWs.induct with
  | case1 => simp [collapseWs]
  | case2 c h => simp_all [collapseWs]
  | case3 c h => simp_all [collapseWs]
  | case4 c d rest h h2 ih =>
      simp only [collapseWs, h, h2, if_pos]
      intro x hx
      rcases ih x hx with h' | h' <;> simp [h']
  | case5 c d rest h h2 ih =>
      simp only [collapseWs, if_pos h, if_neg h2]
      intro x hx
      rcases List.mem_cons.mp hx with h' | h'
      · exact Or.inl h'
      · rcases ih x h' with h'' | h'' <;> simp [h'']
  | case6 c d rest h ih =>
      simp only [collapseWs, if_neg h]
      intro x hx
      rcases List.mem_cons.mp hx with h' | h'
      · simp [h']
      · rcases ih x h' with h'' | h'' <;> simp [h'']

theorem collapseWs_length_le : ∀ l, (collapseWs l).length ≤ l.length := by
  intro l
  induction l using collapseWs.induct <;> simp_all [collapseWs] <;> omega

theorem replaceBadRuns_length_le : ∀ l, (replaceBadRuns l).length ≤ l.length := by
  intro l
  induction l using replaceBadRuns.induct <;> simp_all [replaceBadRuns] <;> omega

theorem length_dropWhile_le_chars (p : Char → Bool) (l : List Char) :
    (l.dropWhile p).length ≤ l.length := by
  induction l with
  | nil => simp
  | cons a rest ih =>
      rw [List.dropWhile_cons]
      split
      · exact Nat.le_succ_of_le ih
      · exact Nat.le_refl _

theorem pyStrip_length_le (l : List Char) : (pyStrip l).length ≤ l.length := by
  unfold pyStrip
  have h1 := length_dropWhile_le_chars isPySpace l
  have h2 := length_dropWhile_le_chars isPySpace (l.dropWhile isPySpace).reverse
  simp only [List.length_reverse] at *
  omega

theorem trunc80_length_le (l : List Char) : (trunc80 l).length ≤ 80 := by
  unfold trunc80
  split
  · simp
  · omega

theorem trunc80_eq_self {l : List Char} (h : l.length ≤ 80) : trunc80 l = l := by
  unfold trunc80
  rw [if_neg (by omega)]

theorem collapseWs_head : ∀ (c : Char) (cs : List Char),
    (collapseWs (c :: cs)).head? = some (if isPySpace c then ' ' else c) := by
  intro c cs
  induction cs generalizing c with
  | nil => by_cases h : isPySpace c <;> simp [collapseWs, h]
  | cons d rest ih =>
      by_cases h : isPySpace c
      · by_cases h2 : isPySpace d
        · simp only [collapseWs, if_pos h, if_pos h2, ih d, if_pos h2]
        · simp [collapseWs, h, h2]
      · simp [collapseWs, h]

theorem noAdjWs_cons {a : Char} {t : List Char}
    (hhead : ∀ b, t.head? = some b → ¬(isPySpace a = true ∧ isPySpace b = true))
    (ht : noAdjWs t = true) : noAdjWs (a :: t) = true := by
  cases t with
  | nil => rfl
  | cons b rest =>
      have hb := hhead b rfl
      simp only [noAdjWs, Bool.and_eq_true, Bool.not_eq_true']
      constructor
      · by_cases h1 : isPySpace a
        · by_cases h2 : isPySpace b
          · exact absurd ⟨h1, h2⟩ hb
          · simp [h1, h2]
        · simp [h1]
      · exact ht

theorem noAdjWs_collapseWs : ∀ l, noAdjWs (collapseWs l) = true := by
  intro l
  induction l using collapseWs.induct with
  | case1 => rfl
  | case2 c h => simp [collapseWs, h, noAdjWs]
  | case3 c h => simp [collapseWs, h, noAdjWs]
  | case4 c d rest h h2 ih => simpa [collapseWs, h, h2] using ih
  | case5 c d rest h h2 ih =>
      simp only [collapseWs, if_pos h, if_neg h2]
      refine noAdjWs_cons ?_ ih
      intro b hb
      rw [collapseWs_head d rest, if_neg h2] at hb
      cases hb
      intro hcon
      exact h2 hcon.2
  | case6 c d rest h ih =>
      simp only [collapseWs, if_neg h]
      refine noAdjWs_cons ?_ ih
      intro b hb
      intro hcon
      exact h hcon.1

theorem noAdjWs_tail {a : Char} {t : List Char} (h : noAdjWs (a :: t) = true) :
    noAdjWs t = true := by
  cases t with
  | nil => rfl
  | cons b rest => exact (Bool.and_eq_true _ _ |>.mp h).2

theorem noAdjWs_append_right : ∀ {xs ys : List Char}, noAdjWs (xs ++ ys) = true →
    noAdjWs ys = true := by
  intro xs
  induction xs with
  | nil => intro ys h; exact h
  | cons a rest ih => intro ys h; exact ih (noAdjWs_tail h)

theorem noAdjWs_append_left : ∀ {xs ys : List Char}, noAdjWs (xs ++ ys) = true →
    noAdjWs xs = true := by
  intro xs
  induction xs with
  | nil => intro ys h; rfl
  | cons a rest ih =>
      intro ys h
      cases rest with
      | nil => rfl
      | cons b rest2 =>
          simp only [List.cons_append, noAdjWs, Bool.and_eq_true] at h ⊢
          exact ⟨h.1, ih h.2⟩

theorem pyStrip_parts (l : List Char) : ∃ pre post, l = pre ++ pyStrip l ++ post := by
  unfold pyStrip
  refine ⟨l.takeWhile isPySpace,
    ((l.dropWhile isPySpace).reverse.takeWhile isPySpace).reverse, ?_⟩
  have h1 : l.takeWhile isPySpace ++ l.dropWhile isPySpace = l :=
    List.takeWhile_append_dropWhile isPySpace l
  have h2 : (l.dropWhile isPySpace).reverse.takeWhile isPySpace
      ++ (l.dropWhile isPySpace).reverse.dropWhile isPySpace
      = (l.dropWhile isPySpace).reverse :=
    List.takeWhile_append_dropWhile isPySpace (l.dropWhile isPySpace).reverse
  have h3 : ((l.dropWhile isPySpace).reverse.dropWhile isPySpace).reverse
        ++ ((l.dropWhile isPySpace).reverse.takeWhile isPySpace).reverse
      = l.dropWhile isPySpace := by
    rw [← List.reverse_append, h2, List.reverse_reverse]
  calc l = l.takeWhile isPySpace ++ l.dropWhile isPySpace := h1.symm
    _ = l.takeWhile isPySpace
        ++ (((l.dropWhile isPySpace).reverse.dropWhile isPySpace).reverse
          ++ ((l.dropWhile isPySpace).reverse.takeWhile isPySpace).reverse) := by rw [h3]
    _ = l.takeWhile isPySpace
        ++ ((l.dropWhile isPySpace).reverse.dropWhile isPySpace).reverse
        ++ ((l.dropWhile isPySpace).reverse.takeWhile isPySpace).reverse := by
          rw [List.append_assoc]

theorem pyStrip_mem {l : List Char} {c : Char} (h : c ∈ pyStrip l) : c ∈ l := by
  obtain ⟨pre, post, hl⟩ := pyStrip_parts l
  rw [hl]
  simp [h]

theorem noAdjWs_pyStrip {l : List Char} (h : noAdjWs l = true) :
    noAdjWs (pyStrip l) = true := by
  obtain ⟨pre, post, hl⟩ := pyStrip_parts l
  rw [hl] at h
  have hpost : noAdjWs (pyStrip l ++ post) = true :=
    noAdjWs_append_right (by simpa using h)
  exact noAdjWs_append_left hpost

theorem dropWhile_head_not (p : Char → Bool) : ∀ (l : List Char) {c : Char},
    (l.dropWhile p).head? = some c → p c = false := by
  intro l
  induction l with
  | nil => intro c h; simp at h
  | cons a rest ih =>
      intro c h
      by_cases ha : p a
      · rw [List.dropWhile_cons, if_pos ha] at h
        exact ih h
      · rw [List.dropWhile_cons, if_neg ha] at h
        simp only [List.head?_cons, Option.some.injEq] at h
        rw [← h]
        simpa using ha

theorem dropWhile_getLast? (p : Char → Bool) : ∀ (l : List Char), l.dropWhile p ≠ [] →
    (l.dropWhile p).getLast? = l.getLast? := by
  intro l
  induction l with
  | nil => intro h; simp at h
  | cons a rest ih =>
      intro h
      by_cases ha : p a
      · rw [List.dropWhile_cons, if_pos ha] at h ⊢
        cases rest with
        | nil => simp at h
        | cons b l2 => rw [ih h, List.getLast?_cons_cons]
      · rw [List.dropWhile_cons, if_neg ha]

theorem pyStrip_head_not {l : List Char} {c : Char} (h : (pyStrip l).head? = some c) :
    isPySpace c = false := by
  unfold pyStrip at h
  rw [List.head?_reverse] at h
  have hne : List.dropWhile isPySpace (l.dropWhile isPySpace).reverse ≠ [] := by
    intro h0; rw [h0] at h; simp at h
  rw [dropWhile_getLast? _ _ hne, List.getLast?_reverse] at h
  exact dropWhile_head_not isPySpace l h

theorem pyStrip_getLast_not {l : List Char} {c : Char} (h : (pyStrip l).getLast? = some c) :
    isPySpace c = false := by
  unfold pyStrip at h
  rw [List.getLast?_reverse] at h
  exact dropWhile_head_not isPySpace _ h

theorem dropWhile_eq_self {p : Char → Bool} {l : List Char}
    (h : ∀ c, l.head? = some c → p c = false) : l.dropWhile p = l := by
  cases l with
  | nil => rfl
  | cons a rest => simp [List.dropWhile_cons, h a rfl]

theorem pyStrip_eq_self {l : List Char}
    (h1 : ∀ c, l.head? = some c → isPySpace c = false)
    (h2 : ∀ c, l.getLast? = some c → isPySpace c = false) : pyStrip l = l := by
  unfold pyStrip
  rw [dropWhile_eq_self h1]
  rw [dropWhile_eq_self (by intro c hc; rw [List.head?_reverse] at hc; exact h2 c hc)]
  exact List.reverse_reverse l

theorem collapseWs_eq_self : ∀ {l : List Char},
    (∀ c ∈ l, isPySpace c = true → c = ' ') → noAdjWs l = true → collapseWs l = l := by
  intro l
  induction l using collapseWs.induct with
  | case1 => intro _ _; rfl
  | case2 c h =>
      intro hall _
      simp only [collapseWs, if_pos h]
      rw [hall c (by simp) h]
  | case3 c h => intro _ _; simp [collapseWs, h]
  | case4 c d rest h h2 ih =>
      intro hall hadj
      exfalso
      simp [noAdjWs, h, h2] at hadj
  | case5 c d rest h h2 ih =>
      intro hall hadj
      simp only [collapseWs, if_pos h, if_neg h2]
      have hc : c = ' ' := hall c (by simp) h
      rw [ih (fun x hx hs => hall x (by simp [hx]) hs) (noAdjWs_tail hadj), ← hc]
  | case6 c d rest h ih =>
      intro hall hadj
      simp only [collapseWs, if_neg h]
      rw [ih (fun x hx hs => hall x (by simp [hx]) hs) (noAdjWs_tail hadj)]

theorem replaceBadRuns_eq_self : ∀ {l : List Char},
    (∀ c ∈ l, isAllowedChar c = true) → replaceBadRuns l = l := by
  intro l
  induction l using replaceBadRuns.induct with
  | case1 => intro _; rfl
  | case2 c h => intro _; simp [replaceBadRuns, h]
  | case3 c h => intro hall; exact absurd (hall c (by simp)) (by simpa using h)
  | case4 c d rest h ih =>
      intro hall
      simp only [replaceBadRuns, if_pos h]
      rw [ih (fun x hx => hall x (by simp [hx]))]
  | case5 c d rest h h2 ih =>
      intro hall; exact absurd (hall c (by simp)) (by simpa using h)
  | case6 c d rest h h2 ih =>
      intro hall; exact absurd (hall c (by simp)) (by simpa using h)

theorem map_crlf_eq_self {l : List Char} (h : ∀ c ∈ l, isAllowedChar c = true) :
    l.map crlfToSpace = l := by
  have heq : ∀ c ∈ l, crlfToSpace c = id c := fun c hc => crlfToSpace_eq_self (h c hc)
  rw [List.map_congr_left heq, List.map_id]

theorem map_lower_eq_self {l : List Char} (h : ∀ c ∈ l, isAllowedChar c = true) :
    l.map lowerChar = l := by
  have heq : ∀ c ∈ l, lowerChar c = id c := fun c hc => lowerChar_eq_self (h c hc)
  rw [List.map_congr_left heq, List.map_id]

theorem sanitizeList_eq_strip (l : List Char) :
    sanitizeList l = pyStrip (collapseWs (replaceBadRuns (normalizeList l))) := by
  unfold sanitizeList
  apply trunc80_eq_self
  have h1 : (normalizeList l).length ≤ 80 := by
    unfold normalizeList; exact trunc80_length_le _
  have h2 := replaceBadRuns_length_le (normalizeList l)
  have h3 := collapseWs_length_le (replaceBadRuns (normalizeList l))
  have h4 := pyStrip_length_le (collapseWs (replaceBadRuns (normalizeList l)))
  omega

theorem sanitizeList_allowed (l : List Char) : ∀ c ∈ sanitizeList l, isAllowedChar c = true := by
  intro c hc
  rw [sanitizeList_eq_strip] at hc
  have hc3 := pyStrip_mem hc
  rcases collapseWs_mem _ c hc3 with h | h
  · rw [h]; exact isAllowedChar_space
  · exact replaceBadRuns_allowed _ c h

theorem sanitizeList_noAdjWs (l : List Char) : noAdjWs (sanitizeList l) = true := by
  rw [sanitizeList_eq_strip]
  exact noAdjWs_pyStrip (noAdjWs_collapseWs _)

theorem sanitizeList_head_not (l : List Char) :
    ∀ c, (sanitizeList l).head? = some c → isPySpace c = false := by
  rw [sanitizeList_eq_strip]
  intro c hc
  exact pyStrip_head_not hc

theorem sanitizeList_getLast_not (l : List Char) :
    ∀ c, (sanitizeList l).getLast? = some c → isPySpace c = false := by
  rw [sanitizeList_eq_strip]
  intro c hc
  exact pyStrip_getLast_not hc

theorem sanitizeList_idem (l : List Char) : sanitizeList (sanitizeList l) = sanitizeList l := by
  have hall : ∀ c ∈ sanitizeList l, isAllowedChar c = true := sanitizeList_allowed l
  have hadj : noAdjWs (sanitizeList l) = true := sanitizeList_noAdjWs l
  have hhead := sanitizeList_head_not l
  have hlast := sanitizeList_getLast_not l
  have hlen : (sanitizeList l).length ≤ 80 := by
    unfold sanitizeList; exact trunc80_length_le _
  have hspace : ∀ c ∈ sanitizeList l, isPySpace c = true → c = ' ' :=
    fun c hc hs => space_of_allowed_pySpace (hall c hc) hs
  have hnorm : normalizeList (sanitizeList l) = sanitizeList l := by
    unfold normalizeList
    rw [map_crlf_eq_self hall, pyStrip_eq_self hhead hlast, map_lower_eq_self hall,
      collapseWs_eq_self hspace hadj]
    exact trunc80_eq_self hlen
  calc sanitizeList (sanitizeList l)
      = trunc80 (pyStrip (collapseWs (replaceBadRuns (normalizeList (sanitizeList l))))) := rfl
    _ = sanitizeList l := by
        rw [hnorm, replaceBadRuns_eq_self hall, collapseWs_eq_self hspace hadj,
          pyStrip_eq_self hhead hlast]
        exact trunc80_eq_self hlen

/-- A contiguous character-level occurrence of `t` inside `s`
(`t` appears verbatim in `s`). -/
def occursIn (t s : List Char) : Prop := ∃ pre post, s = pre ++ t ++ post

theorem occursIn_mem {t s : List Char} (h : occursIn t s) {c : Char} (hc : c ∈ t) : c ∈ s := by
  obtain ⟨pre, post, rfl⟩ := h
  simp [hc]

theorem stringData_mk (l : List Char) : (String.mk l).data = l := rfl

theorem sanitizeReasonForStorage_data (x : String) :
    (sanitizeReasonForStorage x).data = sanitizeList x.data :=
  stringData_mk (sanitizeList x.data)

theorem normalizeReasonForKey_data (x : String) :
    (normalizeReasonForKey x).data = normalizeList x.data :=
  stringData_mk (normalizeList x.data)

/-- Sanitized output never contains, verbatim, a token having any character
outside the storage-safe class (uppercase letters, `=`, `+`, quotes, `@`, ...,
i.e. the characters credential-looking tokens contain). -/
theorem sanitize_no_bad_token (x : String) {t : List Char} {c : Char} (hc : c ∈ t)
    (hbad : isAllowedChar c = false) :
    ¬ occursIn t (sanitizeReasonForStorage x).data := by
  intro h
  have hmem : c ∈ (sanitizeReasonForStorage x).data := occursIn_mem h hc
  rw [sanitizeReasonForStorage_data] at hmem
  have : isAllowedChar c = true := sanitizeList_allowed x.data c hmem
  rw [hbad] at this
  exact Bool.false_ne_true this

/-! ## Data model of the investigation engine

Structures mirror the JSON shapes produced/consumed by
`OpsInvestigationService` (report dict, index record, statuspage sub-dict,
metric/log snapshots).  `Option` fields model JSON keys that may be absent
(`dict.get` returning `None`); timestamp strings are modelled as their
parse result (`Option Int`, `none` = missing/unparsable, cf. `_parse_iso_utc`). -/

/-- A Python numeric-ish JSON value as classified by `_to_int`:
a bool (rejected), an int (kept), or anything else (rejected).
(Floats, which `_to_int` rounds, are outside this integer-level model.) -/
inductive PyVal
  | bool (b : Bool)
  | int (n : Int)
  | other
deriving DecidableEq

/-- `_to_int`. -/
def toIntPy : PyVal → Option Int
  | .bool _ => none
  | .int n => some n
  | .other => none

structure SummaryCounts where
  lambda_invocations : Int
  lambda_errors : Int
  lambda_throttles : Int
  api_count : Int
  api_4xx : Int
  api_5xx : Int
  failed_events : Nat
  log_events_scanned : Nat
  llm_usage_samples : Nat
deriving DecidableEq

structure P95Timings where
  lambda_duration : Option Int
  api_integration_latency : Option Int
deriving DecidableEq

structure ErrorCodeCount where
  code : String
  count : Nat
deriving DecidableEq

/-- The `summary` dict built by `_build_summary`. -/
structure Summary where
  counts : SummaryCounts
  p95_timings_ms : P95Timings
  top_error_codes : List ErrorCodeCount
  sample_request_ids : List String
deriving DecidableEq

structure LambdaMetrics where
  invocations : Int
  errors : Int
  throttles : Int
  duration_p95_ms : Option Int
deriving DecidableEq

structure ApiGatewayMetrics where
  count : Int
  api_4xx : Int
  api_5xx : Int
  integration_latency_p95_ms : Option Int
deriving DecidableEq

/-- The `metrics` dict of `_collect_metrics`. -/
structure MetricsSnapshot where
  lambdaM : LambdaMetrics
  api_gateway : ApiGatewayMetrics
deriving DecidableEq

structure TokenCounts where
  samples : Nat
  llm_prompt_tokens_sum : Int
  llm_output_tokens_sum : Int
  llm_total_tokens_sum : Int
  llm_total_tokens_avg : Int
deriving DecidableEq

/-- The dict returned by `_collect_logs`. -/
structure LogSignals where
  error_code_counts : List (String × Nat)
  sample_request_ids : List String
  failed_events : Nat
  events_scanned : Nat
  token_counts : TokenCounts
deriving DecidableEq

/-- The `statuspage` sub-dict of an index record (`_index_status` result).
`incident_id` uses `""` for "absent" exactly as `status.get("incident_id", "")`
does; `incident_url` keeps the key-absent case (`none`) distinct. -/
structure StatuspageState where
  incident_id : String
  incident_url : Option String
  last_state : Option String
  last_update_at : Option Int
deriving DecidableEq

/-- An index record (`reports/incidents/index/{incident_key}.json`). -/
structure IndexRecord where
  incident_key : String
  stage : String
  window_minutes : Int
  reason : String
  updated_at : Option Int
  ttl_seconds : Int
  latest_report_pfx : String
  summary : Option Summary
  statuspage : Option StatuspageState
deriving DecidableEq

structure Signals where
  error_code_aggregation : List (String × Nat)
  sample_request_ids : List String
  token_counts : TokenCounts
deriving DecidableEq

structure ReportStatuspage where
  posted : Bool
  error : Option String
  incident_id : String
  incident_url : Option String
deriving DecidableEq

/-- The report dict persisted by `investigate` (fresh path). -/
structure Report where
  incident_id : String
  incident_key : String
  request_id : String
  stage : String
  window_minutes : Int
  deduped : Bool
  generated_at : Int
  window_start : Int
  window_end : Int
  reason : String
  summary : Summary
  metrics : MetricsSnapshot
  signals : Signals
  statuspage : ReportStatuspage
deriving DecidableEq

/-- The dict returned by `investigate`. -/
structure InvestigateResult where
  incident_id : String
  incident_key : String
  deduped : Bool
  summary : Option Summary
  statuspage_incident_url : Option String
  report_s3_key : String
  statuspage_posted : Bool
  statuspage_error : Option String
deriving DecidableEq

/-- `OpsNotifyFailedError`. -/
inductive OpsError
  | notifyFailed
deriving DecidableEq

/-- The tunables `investigate` reads from the environment, plus the
identifier-resolution env values used by the collectors (already stripped).
`ttl_seconds`, `bucket_seconds` and `status_update_min_seconds` come from
`_env_int` (positive, defaults 300/300/600); `statuspage_strict` from
`DECISIONDOC_OPS_STATUSPAGE_STRICT`. -/
structure Config where
  ttl_seconds : Int
  bucket_seconds : Int
  status_update_min_seconds : Int
  statuspage_strict : Bool
  s3_pfx : String
  lambda_function_name : String
  aws_lambda_function_name : String
  http_api_id : String
  log_group : String
deriving DecidableEq

/-- `create_investigating_incident`'s result dict. -/
structure CreatedIncident where
  incident_id : String
  incident_url : String
deriving DecidableEq

deriving instance DecidableEq for Except

/-- Outcomes of the two statuspage notifier operations for this call
(`.error ()` models the client raising `StatuspageError`). -/
structure NotifierBehavior where
  post_update : Except Unit Unit
  create_incident : Except Unit CreatedIncident
deriving DecidableEq

/-- One structured log event from `filter_log_events`: a non-dict entry
(skipped before counting), an event whose `message` is not a JSON object
(counted as scanned, then skipped), or a parsed payload. -/
structure LogPayload where
  error_code : Option String
  event : Option String
  request_id : Option String
  llm_prompt_tokens : PyVal
  llm_output_tokens : PyVal
  llm_total_tokens : PyVal
deriving DecidableEq

inductive LogEvent
  | notDict
  | unparsable
  | payload (p : LogPayload)
deriving DecidableEq

/-- One entry of `MetricDataResults` (its `Values` list; `none` models a
missing or non-list `Values` key). -/
structure MetricItem where
  values : Option (List PyVal)
deriving DecidableEq

/-- `MetricDataResults`, keyed by query `Id`. -/
abbrev MetricsResponse := List (String × MetricItem)

/-- External-call / persistence trace of one `investigate` call. -/
structure Effects where
  metrics_queries : Nat
  log_queries : Nat
  post_update_calls : Nat
  create_incident_calls : Nat
  report_writes : List (String × Report)
  index_writes : List (String × IndexRecord)
deriving DecidableEq

def emptyEffects : Effects :=
  { metrics_queries := 0, log_queries := 0, post_update_calls := 0,
    create_incident_calls := 0, report_writes := [], index_writes := [] }

/-! ## `_collect_metrics` -/

/-- The all-zero / null-percentile snapshot the collector starts from
(and returns unchanged on any query failure). -/
def zeroMetrics : MetricsSnapshot :=
  { lambdaM := { invocations := 0, errors := 0, throttles := 0, duration_p95_ms := none },
    api_gateway := { count := 0, api_4xx := 0, api_5xx := 0,
                     integration_latency_p95_ms := none } }

/-- Compute-unit identifier resolution: `DECISIONDOC_LAMBDA_FUNCTION_NAME`,
else `AWS_LAMBDA_FUNCTION_NAME`, else `f"decisiondoc-ai-{stage}"`. -/
def metricsFunctionName (cfg : Config) (stage : String) : String :=
  if cfg.lambda_function_name ≠ "" then cfg.lambda_function_name
  else if cfg.aws_lambda_function_name ≠ "" then cfg.aws_lambda_function_name
  else "decisiondoc-ai-" ++ stage

/-- `{item.get("Id"): item for item in ...}` followed by `metric_map.get(id)`
(later duplicates of an `Id` overwrite earlier ones). -/
def lookupMetric (resp : MetricsResponse) (qid : String) : Option MetricItem :=
  (resp.reverse.find? (fun p => p.1 = qid)).map (fun p => p.2)

/-- `_sum_metric`. -/
def sumMetric (item : Option MetricItem) : Int :=
  match item with
  | none => 0
  | some it =>
      match it.values with
      | none => 0
      | some vs =>
          vs.foldl (fun total v =>
            match toIntPy v with
            | some n => total + n
            | none => total) 0

/-- `_p95_metric` (max of the per-period p95 values the backend returned). -/
def p95Metric (item : Option MetricItem) : Option Int :=
  match item with
  | none => none
  | some it =>
      match it.values with
      | none => none
      | some vs =>
          if vs.isEmpty then none
          else
            match (vs.filterMap toIntPy).max? with
            | some m => some m
            | none => none

/-- `_collect_metrics`: one batched backend query; on failure the zero
snapshot.  Second component: how many backend queries were issued. -/
def collectMetrics (cfg : Config) (stage : String)
    (backend : Except Unit MetricsResponse) : MetricsSnapshot × Nat :=
  let function_name := metricsFunctionName cfg stage
  if function_name = "" then (zeroMetrics, 0)
  else
    match backend with
    | .error _ => (zeroMetrics, 1)
    | .ok resp =>
        ({ lambdaM :=
            { invocations := sumMetric (lookupMetric resp "lambda_invocations"),
              errors := sumMetric (lookupMetric resp "lambda_errors"),
              throttles := sumMetric (lookupMetric resp "lambda_throttles"),
              duration_p95_ms := p95Metric (lookupMetric resp "lambda_duration_p95") },
           api_gateway :=
            { count := sumMetric (lookupMetric resp "api_count"),
              api_4xx := sumMetric (lookupMetric resp "api_4xx"),
              api_5xx := sumMetric (lookupMetric resp "api_5xx"),
              integration_latency_p95_ms :=
                p95Metric (lookupMetric resp "api_integration_latency_p95") } }, 1)

/-! ## `_collect_logs` -/

/-- Loop state of the `_collect_logs` accumulation. -/
structure LogAccum where
  error_codes : List (String × Nat)
  sample_request_ids : List String
  token_prompt_sum : Int
  token_output_sum : Int
  token_total_sum : Int
  usage_samples : Nat
  failed_events : Nat
  events_scanned : Nat
deriving DecidableEq

def initLogAccum : LogAccum :=
  { error_codes := [], sample_request_ids := [], token_prompt_sum := 0,
    token_output_sum := 0, token_total_sum := 0, usage_samples := 0,
    failed_events := 0, events_scanned := 0 }

/-- `Counter[error_code] += 1` on an insertion-ordered association list
(Python dicts preserve insertion order). -/
def bumpCounter (code : String) : List (String × Nat) → List (String × Nat)
  | [] => [(code, 1)]
  | (k, v) :: rest =>
      if k = code then (k, v + 1) :: rest else (k, v) :: bumpCounter code rest

/-- One iteration of the `for event in events` loop of `_collect_logs`. -/
def processLogEvent (acc : LogAccum) (e : LogEvent) : LogAccum :=
  match e with
  | .notDict => acc
  | .unparsable => { acc with events_scanned := acc.events_scanned + 1 }
  | .payload p =>
      let acc := { acc with events_scanned := acc.events_scanned + 1 }
      let acc :=
        match p.error_code with
        | some ec =>
            if ec ≠ "" then { acc with error_codes := bumpCounter ec acc.error_codes }
            else acc
        | none => acc
      let acc :=
        if p.event = some "request.failed" then
          { acc with failed_events := acc.failed_events + 1 }
        else acc
      let acc :=
        match p.request_id with
        | some rid =>
            if rid ≠ "" && !(acc.sample_request_ids.contains rid) then
              if acc.sample_request_ids.length < 10 then
                { acc with sample_request_ids := acc.sample_request_ids ++ [rid] }
              else acc
            else acc
        | none => acc
      let pt := toIntPy p.llm_prompt_tokens
      let ot := toIntPy p.llm_output_tokens
      let tt := toIntPy p.llm_total_tokens
      if tt = none && pt = none && ot = none then acc
      else
        { acc with
          usage_samples := acc.usage_samples + 1,
          token_prompt_sum := acc.token_prompt_sum + pt.getD 0,
          token_output_sum := acc.token_output_sum + ot.getD 0,
          token_total_sum := acc.token_total_sum + tt.getD 0 }

/-- Python's `round(a / b)` for integer `a` and positive integer `b`
(round half to even), as used for `llm_total_tokens_avg`. -/
def roundHalfEven (a b : Int) : Int :=
  let q := Int.fdiv a b
  let r := a - q * b
  if 2 * r < b then q
  else if 2 * r > b then q + 1
  else if q % 2 = 0 then q
  else q + 1

/-- The final dict of `_collect_logs` (also its early-return shape, whose
literal zero dict coincides with finalizing the initial accumulator). -/
def finalizeLogs (acc : LogAccum) : LogSignals :=
  { error_code_counts := acc.error_codes,
    sample_request_ids := acc.sample_request_ids,
    failed_events := acc.failed_events,
    events_scanned := acc.events_scanned,
    token_counts :=
      { samples := acc.usage_samples,
        llm_prompt_tokens_sum := acc.token_prompt_sum,
        llm_output_tokens_sum := acc.token_output_sum,
        llm_total_tokens_sum := acc.token_total_sum,
        llm_total_tokens_avg :=
          if acc.usage_samples > 0 then
            roundHalfEven acc.token_total_sum acc.usage_samples
          else 0 } }

/-- `_default_lambda_log_group`. -/
def defaultLambdaLogGroup (cfg : Config) : String :=
  let fn := if cfg.aws_lambda_function_name ≠ "" then cfg.aws_lambda_function_name
            else cfg.lambda_function_name
  if fn = "" then "" else "/aws/lambda/" ++ fn

/-- `_collect_logs`: resolve the log group (if none, return the empty
signals without querying); one bounded backend query; on failure return
what was accumulated before it (the query is the first fallible step, so
the initial accumulator).  Second component: queries issued. -/
def collectLogs (cfg : Config) (backend : Except Unit (List LogEvent)) :
    LogSignals × Nat :=
  let log_group := if cfg.log_group ≠ "" then cfg.log_group else defaultLambdaLogGroup cfg
  if log_group = "" then (finalizeLogs initLogAccum, 0)
  else
    match backend with
    | .error _ => (finalizeLogs initLogAccum, 1)
    | .ok events => (finalizeLogs (events.foldl processLogEvent initLogAccum), 1)

/-! ## `_build_summary` -/

/-- The sort order of `sorted(items, key=lambda item: (-item[1], item[0]))`:
count descending, then code ascending. -/
def errLe (a b : String × Nat) : Bool :=
  b.2 < a.2 || (a.2 = b.2 && a.1 ≤ b.1)

def insertSorted (x : String × Nat) :
    List (String × Nat) → List (String × Nat)
  | [] => [x]
  | y :: ys => if errLe x y then x :: y :: ys else y :: insertSorted x ys

/-- Stable sort by `errLe` (insertion sort). -/
def sortErrItems (l : List (String × Nat)) : List (String × Nat) :=
  l.foldr insertSorted []

/-- `_build_summary`. -/
def buildSummary (metrics : MetricsSnapshot) (logs : LogSignals) : Summary :=
  let error_items := (sortErrItems logs.error_code_counts).take 5
  { counts :=
      { lambda_invocations := metrics.lambdaM.invocations,
        lambda_errors := metrics.lambdaM.errors,
        lambda_throttles := metrics.lambdaM.throttles,
        api_count := metrics.api_gateway.count,
        api_4xx := metrics.api_gateway.api_4xx,
        api_5xx := metrics.api_gateway.api_5xx,
        failed_events := logs.failed_events,
        log_events_scanned := logs.events_scanned,
        llm_usage_samples := logs.token_counts.samples },
    p95_timings_ms :=
      { lambda_duration := metrics.lambdaM.duration_p95_ms,
        api_integration_latency := metrics.api_gateway.integration_latency_p95_ms },
    top_error_codes := error_items.map (fun p => { code := p.1, count := p.2 }),
    sample_request_ids := logs.sample_request_ids }

/-! ## Index helpers and dedupe predicates -/

/-- `p.endswith("/")`. -/
def endsWithSlash (p : String) : Bool :=
  match p.data.getLast? with
  | some c => c = '/'
  | none => false

/-- `_prefix()` normalization (default `"decisiondoc-ai/"` is carried in
`Config.s3_pfx`): append `"/"` when nonempty and not already ending in it. -/
def pfxNorm (p : String) : String :=
  if p ≠ "" && !(endsWithSlash p) then p ++ "/" else p

/-- `_index_key`. -/
def indexKeyFor (cfg : Config) (incident_key : String) : String :=
  pfxNorm cfg.s3_pfx ++ "reports/incidents/index/" ++ incident_key ++ ".json"

/-- `_report_prefix`. -/
def reportPfx (cfg : Config) (incident_key run_id : String) : String :=
  pfxNorm cfg.s3_pfx ++ "reports/incidents/" ++ incident_key ++ "/" ++ run_id ++ "/"

/-- The empty dict `_index_status` returns when the record (or its
`statuspage` entry) is missing/not a dict, viewed through the `.get`
defaults used on it. -/
def emptyStatus : StatuspageState :=
  { incident_id := "", incident_url := none, last_state := none, last_update_at := none }

/-- `_index_status`. -/
def indexStatus : Option IndexRecord → StatuspageState
  | some r =>
      match r.statuspage with
      | some st => st
      | none => emptyStatus
  | none => emptyStatus

/-- `_index_statuspage_url`: the stored `incident_url` if it is a nonempty
string. -/
def indexStatuspageUrl (rec? : Option IndexRecord) : Option String :=
  match (indexStatus rec?).incident_url with
  | some u => if u ≠ "" then some u else none
  | none => none

/-- `_is_dedupe_hit`: the record's `updated_at` parses and
`0 <= now - updated_at < ttl_seconds`. -/
def isDedupeHit (r : IndexRecord) (now ttl_seconds : Int) : Bool :=
  match r.updated_at with
  | none => false
  | some u =>
      let age_seconds := now - u
      decide (0 ≤ age_seconds) && decide (age_seconds < ttl_seconds)

/-- The dedupe-hit predicate including record existence (the
`index_data and ...` guard of `investigate`). -/
def isDedupeHitOpt : Option IndexRecord → Int → Int → Bool
  | none, _, _ => false
  | some r, now, ttl => isDedupeHit r now ttl

/-- `_should_post_dedupe_update`: no parsable prior
`statuspage.last_update_at`, or it is at least `min_seconds` old. -/
def shouldPostDedupeUpdate (r : IndexRecord) (now min_seconds : Int) : Bool :=
  match (indexStatus (some r)).last_update_at with
  | none => true
  | some lu => decide (now - lu ≥ min_seconds)

/-! ## `investigate` -/

/-- The fixed soft-error string recorded on notifier failure. -/
def notifyFailedMsg : String := "Status page notification failed."

/-- `report_key` returned on the dedupe path:
`f"{latest_prefix}report.json"` when the stored pointer is nonempty. -/
def dedupeReportKey (r : IndexRecord) : String :=
  if r.latest_report_pfx ≠ "" then r.latest_report_pfx ++ "report.json" else ""

/-- The result dict of the dedupe-hit path. -/
def dedupeResult (r : IndexRecord) (incident_key : String) (status_url : Option String)
    (posted : Bool) (err : Option String) : InvestigateResult :=
  { incident_id := incident_key, incident_key := incident_key, deduped := true,
    summary := r.summary, statuspage_incident_url := status_url,
    report_s3_key := dedupeReportKey r,
    statuspage_posted := posted, statuspage_error := err }

/-- The dedupe-hit path of `investigate` (lines 126-163 of the source):
optionally throttle-gated `post_investigating_update`, index rewrite on
success, soft/strict handling on failure, cached summary in the result. -/
def dedupePath (cfg : Config) (notifier : NotifierBehavior) (r : IndexRecord)
    (incident_key index_key : String) (now : Int) :
    Except OpsError InvestigateResult × Effects :=
  let status_url := indexStatuspageUrl (some r)
  let status := indexStatus (some r)
  let incident_id := status.incident_id
  if incident_id ≠ "" && shouldPostDedupeUpdate r now cfg.status_update_min_seconds then
    match notifier.post_update with
    | .ok _ =>
        let status' := { status with
          last_update_at := some now, last_state := some "investigating" }
        let r' := { r with statuspage := some status' }
        (.ok (dedupeResult r incident_key status_url true none),
          { emptyEffects with post_update_calls := 1, index_writes := [(index_key, r')] })
    | .error _ =>
        if cfg.statuspage_strict then
          (.error .notifyFailed, { emptyEffects with post_update_calls := 1 })
        else
          (.ok (dedupeResult r incident_key status_url false (some notifyFailedMsg)),
            { emptyEffects with post_update_calls := 1 })
  else
    (.ok (dedupeResult r incident_key status_url false none), emptyEffects)

/-- The notify step of the fresh path (lines 177-194): update when an
incident id is recorded, else create; on success the statuspage dict is
mutated.  Also returns (post_update calls, create_incident calls). -/
def freshNotify (notifier : NotifierBehavior) (status : StatuspageState) (now : Int) :
    Except Unit StatuspageState × (Nat × Nat) :=
  if status.incident_id ≠ "" then
    match notifier.post_update with
    | .ok _ =>
        (.ok { status with last_state := some "investigating", last_update_at := some now },
          (1, 0))
    | .error _ => (.error (), (1, 0))
  else
    match notifier.create_incident with
    | .ok created =>
        (.ok { status with
          incident_id := created.incident_id,
          incident_url := some created.incident_url,
          last_state := some "investigating",
          last_update_at := some now }, (0, 1))
    | .error _ => (.error (), (0, 1))

/-- Tail of the fresh path (lines 196-250): build and persist the report
(JSON + Markdown keys), overwrite the index record, return the result. -/
def freshFinish (cfg : Config) (window_minutes : Int)
    (reason_safe stage request_id incident_key index_key rptPfx : String)
    (now : Int) (metrics : MetricsSnapshot) (logs : LogSignals) (summary : Summary)
    (statusF : StatuspageState) (status_url : Option String) (posted : Bool)
    (err : Option String) (mq lq pc cc : Nat) :
    Except OpsError InvestigateResult × Effects :=
  let report_json_key := rptPfx ++ "report.json"
  let report_md_key := rptPfx ++ "report.md"
  let report : Report :=
    { incident_id := incident_key, incident_key := incident_key,
      request_id := request_id, stage := stage, window_minutes := window_minutes,
      deduped := false, generated_at := now,
      window_start := now - window_minutes * 60, window_end := now,
      reason := reason_safe, summary := summary, metrics := metrics,
      signals := { error_code_aggregation := logs.error_code_counts,
                   sample_request_ids := logs.sample_request_ids,
                   token_counts := logs.token_counts },
      statuspage := { posted := posted, error := err,
                      incident_id := statusF.incident_id, incident_url := status_url } }
  let next_index : IndexRecord :=
    { incident_key := incident_key, stage := stage, window_minutes := window_minutes,
      reason := reason_safe, updated_at := some now, ttl_seconds := cfg.ttl_seconds,
      latest_report_pfx := rptPfx, summary := some summary,
      statuspage := some { incident_id := statusF.incident_id, incident_url := status_url,
                           last_state := some (statusF.last_state.getD "investigating"),
                           last_update_at := statusF.last_update_at } }
  (.ok { incident_id := incident_key, incident_key := incident_key, deduped := false,
         summary := some summary, statuspage_incident_url := status_url,
         report_s3_key := report_json_key, statuspage_posted := posted,
         statuspage_error := err },
   { metrics_queries := mq, log_queries := lq, post_update_calls := pc,
     create_incident_calls := cc,
     report_writes := [(report_json_key, report), (report_md_key, report)],
     index_writes := [(index_key, next_index)] })

/-- The fresh path of `investigate` (lines 165-250): collect metrics and
logs, summarize, notify (update-or-create) with soft/strict failure
handling, persist report and index. -/
def freshPath (cfg : Config) (notifier : NotifierBehavior) (index_data : Option IndexRecord)
    (metricsBackend : Except Unit MetricsResponse) (logsBackend : Except Unit (List LogEvent))
    (window_minutes : Int) (reason_safe stage request_id incident_key index_key : String)
    (now : Int) (run_id : String) : Except OpsError InvestigateResult × Effects :=
  let mres := collectMetrics cfg stage metricsBackend
  let lres := collectLogs cfg logsBackend
  let metrics := mres.1
  let logs := lres.1
  let summary := buildSummary metrics logs
  let rptPfx := reportPfx cfg incident_key run_id
  let status := indexStatus index_data
  let status_url0 := status.incident_url
  match freshNotify notifier status now with
  | (.error _, pcc) =>
      if cfg.statuspage_strict then
        (.error .notifyFailed,
          { metrics_queries := mres.2, log_queries := lres.2,
            post_update_calls := pcc.1, create_incident_calls := pcc.2,
            report_writes := [], index_writes := [] })
      else
        freshFinish cfg window_minutes reason_safe stage request_id incident_key index_key
          rptPfx now metrics logs summary status status_url0 false (some notifyFailedMsg)
          mres.2 lres.2 pcc.1 pcc.2
  | (.ok statusU, pcc) =>
      freshFinish cfg window_minutes reason_safe stage request_id incident_key index_key
        rptPfx now metrics logs summary statusU statusU.incident_url true none
        mres.2 lres.2 pcc.1 pcc.2

/-- `OpsInvestigationService.investigate`.  Inputs: configuration, the
notifier's behavior, the stored index record under the derived key
(`none` = absent/unreadable/malformed, cf. `_read_s3_json`), the two
telemetry backend responses, the request parameters, the current time
and the run id (`_build_run_id`'s time+random value, supplied as an
input).  Output: the returned dict (or the raised
`OpsNotifyFailedError`), and the external-call/persistence trace. -/
def investigate (cfg : Config) (notifier : NotifierBehavior)
    (index_data : Option IndexRecord)
    (metricsBackend : Except Unit MetricsResponse)
    (logsBackend : Except Unit (List LogEvent))
    (window_minutes : Int) (reason stage request_id : String)
    (force : Bool) (now : Int) (run_id : String) :
    Except OpsError InvestigateResult × Effects :=
  let reason_norm := normalizeReasonForKey reason
  let reason_safe := sanitizeReasonForStorage reason
  let incident_key := buildIncidentKey stage window_minutes reason_norm now cfg.bucket_seconds
  let index_key := indexKeyFor cfg incident_key
  match index_data with
  | some r =>
      if !force && isDedupeHit r now cfg.ttl_seconds then
        dedupePath cfg notifier r incident_key index_key now
      else
        freshPath cfg notifier index_data metricsBackend logsBackend window_minutes
          reason_safe stage request_id incident_key index_key now run_id
  | none =>
      freshPath cfg notifier none metricsBackend logsBackend window_minutes
        reason_safe stage request_id incident_key index_key now run_id

/-! ## Path-selection lemmas -/

theorem investigate_dedupe_eq (cfg : Config) (notifier : NotifierBehavior)
    (r : IndexRecord) (mb : Except Unit MetricsResponse)
    (lb : Except Unit (List LogEvent)) (w : Int) (reason stage rid : String)
    (now : Int) (run_id : String)
    (hhit : isDedupeHit r now cfg.ttl_seconds = true) :
    investigate cfg notifier (some r) mb lb w reason stage rid false now run_id
      = dedupePath cfg notifier r
          (buildIncidentKey stage w (normalizeReasonForKey reason) now cfg.bucket_seconds)
          (indexKeyFor cfg
            (buildIncidentKey stage w (normalizeReasonForKey reason) now cfg.bucket_seconds))
          now := by
  simp [investigate, hhit]

theorem investigate_fresh_eq (cfg : Config) (notifier : NotifierBehavior)
    (index_data : Option IndexRecord) (mb : Except Unit MetricsResponse)
    (lb : Except Unit (List LogEvent)) (w : Int) (reason stage rid : String)
    (force : Bool) (now : Int) (run_id : String)
    (hfresh : force = true ∨ isDedupeHitOpt index_data now cfg.ttl_seconds = false) :
    investigate cfg notifier index_data mb lb w reason stage rid force now run_id
      = freshPath cfg notifier index_data mb lb w
          (sanitizeReasonForStorage reason) stage rid
          (buildIncidentKey stage w (normalizeReasonForKey reason) now cfg.bucket_seconds)
          (indexKeyFor cfg
            (buildIncidentKey stage w (normalizeReasonForKey reason) now cfg.bucket_seconds))
          now run_id := by
  cases index_data with
  | none => simp [investigate]
  | some r =>
      rcases hfresh with hf | hmiss
      · simp [investigate, hf]
      · simp only [isDedupeHitOpt] at hmiss
        simp [investigate, hmiss]

/-! ## Claim theorems -/

/-- C3: `_is_dedupe_hit` (with the record-existence guard of `investigate`)
holds iff the record exists, its `updated_at` parses, and
`0 <= now - updated_at < ttl_seconds`; a record with a missing or
unparsable timestamp (modelled `updated_at = none`) is never a hit. -/
theorem isDedupeHit_iff (rec? : Option IndexRecord) (now ttl_seconds : Int) :
    isDedupeHitOpt rec? now ttl_seconds = true ↔
      ∃ r u, rec? = some r ∧ r.updated_at = some u ∧
        0 ≤ now - u ∧ now - u < ttl_seconds := by
  cases rec? with
  | none => simp [isDedupeHitOpt]
  | some r =>
      simp only [isDedupeHitOpt]
      cases hu : r.updated_at with
      | none => simp [isDedupeHit, hu]
      | some u =>
          simp only [isDedupeHit, hu, Bool.and_eq_true, decide_eq_true_eq]
          constructor
          · intro h
            exact ⟨r, u, rfl, hu, h.1, h.2⟩
          · rintro ⟨r', u', heq, hu', h1, h2⟩
            cases heq
            rw [hu] at hu'
            cases hu'
            exact ⟨h1, h2⟩

/-- C7: `_build_incident_key` computes
`bucket = floor(epoch(now) / bucket_seconds)` (Python `//`, i.e. `Int.fdiv`),
hashes `stage|window_minutes|bucket|reason_norm` with SHA-256, takes the
first 12 hex characters and prepends `"inc-"`; it is deterministic: two
times in the same bucket give identical keys. -/
theorem buildIncidentKey_spec (stage : String) (w : Int) (reason_norm : String)
    (now now2 bucket_seconds : Int)
    (hbucket : Int.fdiv now bucket_seconds = Int.fdiv now2 bucket_seconds) :
    buildIncidentKey stage w reason_norm now bucket_seconds
      = "inc-" ++ strTake (sha256Hex (stage ++ "|" ++ toString w ++ "|"
          ++ toString (Int.fdiv now bucket_seconds) ++ "|" ++ reason_norm)) 12
    ∧ buildIncidentKey stage w reason_norm now bucket_seconds
      = buildIncidentKey stage w reason_norm now2 bucket_seconds := by
  constructor
  · rfl
  · unfold buildIncidentKey
    rw [hbucket]

theorem buildIncidentKey_spec_witness :
    buildIncidentKey "dev" 30 "elevated errors" 100 300
      = "inc-" ++ strTake (sha256Hex ("dev" ++ "|" ++ toString (30 : Int) ++ "|"
          ++ toString (Int.fdiv 100 300) ++ "|" ++ "elevated errors")) 12
    ∧ buildIncidentKey "dev" 30 "elevated errors" 100 300
      = buildIncidentKey "dev" 30 "elevated errors" 200 300 :=
  buildIncidentKey_spec "dev" 30 "elevated errors" 100 200 300 (by decide)

/-- C9: both reason functions are pure total Lean functions by
construction, and `_sanitize_reason_for_storage` is idempotent. -/
theorem sanitizeReasonForStorage_idempotent (x : String) :
    sanitizeReasonForStorage (sanitizeReasonForStorage x)
      = sanitizeReasonForStorage x := by
  have h : sanitizeList ((sanitizeReasonForStorage x).data) = sanitizeList x.data := by
    rw [sanitizeReasonForStorage_data]
    exact sanitizeList_idem x.data
  calc sanitizeReasonForStorage (sanitizeReasonForStorage x)
      = String.mk (sanitizeList ((sanitizeReasonForStorage x).data)) := rfl
    _ = String.mk (sanitizeList x.data) := by rw [h]
    _ = sanitizeReasonForStorage x := rfl

/-- C8: the collectors never raise (they are total functions of the
backend outcome); on a metrics query failure `_collect_metrics` returns
the all-zero / null-p95 snapshot, and on a logs query failure
`_collect_logs` returns exactly what was accumulated before the failure
(the query is its first fallible step, so the zero/empty signals). -/
theorem collectors_degrade_never_raise (cfg : Config) (stage : String) :
    (collectMetrics cfg stage (.error ())).1 = zeroMetrics
    ∧ (collectLogs cfg (.error ())).1 = finalizeLogs initLogAccum
    ∧ finalizeLogs initLogAccum =
        { error_code_counts := [], sample_request_ids := [], failed_events := 0,
          events_scanned := 0,
          token_counts := { samples := 0, llm_prompt_tokens_sum := 0,
                            llm_output_tokens_sum := 0, llm_total_tokens_sum := 0,
                            llm_total_tokens_avg := 0 } } := by
  refine ⟨?_, ?_, rfl⟩
  · by_cases hfn : metricsFunctionName cfg stage = "" <;>
      simp [collectMetrics, hfn]
  · by_cases hlg : (if cfg.log_group ≠ "" then cfg.log_group
        else defaultLambdaLogGroup cfg) = "" <;>
      simp [collectLogs, hlg]
    split
    · split
      · rfl
      · rfl
    · rfl

/-- C5: on a dedupe hit with an externally-open incident recorded and a
working notifier: when there is no prior `last_update_at` or it is at
least `min_seconds` old, exactly one `post_update` call is made and the
rewritten index's `last_update_at` advances to `now`; when it is younger,
no notifier call is made at all. -/
theorem dedupe_throttled_update (cfg : Config) (notifier : NotifierBehavior)
    (r : IndexRecord) (mb : Except Unit MetricsResponse) (lb : Except Unit (List LogEvent))
    (w : Int) (reason stage rid : String) (now : Int) (run_id : String)
    (hhit : isDedupeHit r now cfg.ttl_seconds = true)
    (hinc : (indexStatus (some r)).incident_id ≠ "")
    (hok : notifier.post_update = .ok ()) :
    (((indexStatus (some r)).last_update_at = none
        ∨ ∃ lu, (indexStatus (some r)).last_update_at = some lu
            ∧ now - lu ≥ cfg.status_update_min_seconds) →
      (investigate cfg notifier (some r) mb lb w reason stage rid false now
          run_id).2.post_update_calls = 1
      ∧ (investigate cfg notifier (some r) mb lb w reason stage rid false now
          run_id).2.create_incident_calls = 0
      ∧ ∃ k r', (investigate cfg notifier (some r) mb lb w reason stage rid false now
            run_id).2.index_writes = [(k, r')]
          ∧ (indexStatus (some r')).last_update_at = some now)
    ∧ (∀ lu, (indexStatus (some r)).last_update_at = some lu →
        now - lu < cfg.status_update_min_seconds →
        (investigate cfg notifier (some r) mb lb w reason stage rid false now
          run_id).2.post_update_calls = 0
        ∧ (investigate cfg notifier (some r) mb lb w reason stage rid false now
          run_id).2.create_incident_calls = 0) := by
  rw [investigate_dedupe_eq cfg notifier r mb lb w reason stage rid now run_id hhit]
  constructor
  · intro hdue
    have hsp : shouldPostDedupeUpdate r now cfg.status_update_min_seconds = true := by
      unfold shouldPostDedupeUpdate
      rcases hdue with h | ⟨lu, hlu, hge⟩
      · rw [h]
      · rw [hlu]
        simp [hge]
    simp only [dedupePath, hsp, hok, Bool.and_true]
    simp [hinc]
    refine ⟨rfl, ?_⟩
    refine ⟨_, _, ⟨rfl, rfl⟩, ?_⟩
    simp [indexStatus]
  · intro lu hlu hlt
    have hsp : shouldPostDedupeUpdate r now cfg.status_update_min_seconds = false := by
      unfold shouldPostDedupeUpdate
      rw [hlu]
      simp
      omega
    simp only [dedupePath, hsp, Bool.and_false, if_false]
    exact ⟨rfl, rfl⟩

/-! ## Notifier-failure lemmas -/

theorem freshNotify_fail (notifier : NotifierBehavior) (status : StatuspageState)
    (now : Int) (hpost : notifier.post_update = .error ())
    (hcreate : notifier.create_incident = .error ()) :
    freshNotify notifier status now
      = (.error (), if status.incident_id ≠ "" then (1, 0) else (0, 1)) := by
  by_cases h : status.incident_id = "" <;> simp [freshNotify, h, hpost, hcreate]

theorem freshPath_fail_strict (cfg : Config) (notifier : NotifierBehavior)
    (index_data : Option IndexRecord) (mb : Except Unit MetricsResponse)
    (lb : Except Unit (List LogEvent)) (w : Int) (rs stage rid ik xk : String)
    (now : Int) (run_id : String)
    (hpost : notifier.post_update = .error ())
    (hcreate : notifier.create_incident = .error ())
    (hstrict : cfg.statuspage_strict = true) :
    (freshPath cfg notifier index_data mb lb w rs stage rid ik xk now run_id).1
        = .error .notifyFailed
    ∧ (freshPath cfg notifier index_data mb lb w rs stage rid ik xk now run_id).2.report_writes = []
    ∧ (freshPath cfg notifier index_data mb lb w rs stage rid ik xk now run_id).2.index_writes = [] := by
  simp only [freshPath, freshNotify_fail notifier _ now hpost hcreate, hstrict]
  exact ⟨rfl, rfl, rfl⟩

theorem freshPath_fail_soft (cfg : Config) (notifier : NotifierBehavior)
    (index_data : Option IndexRecord) (mb : Except Unit MetricsResponse)
    (lb : Except Unit (List LogEvent)) (w : Int) (rs stage rid ik xk : String)
    (now : Int) (run_id : String)
    (hpost : notifier.post_update = .error ())
    (hcreate : notifier.create_incident = .error ())
    (hstrict : cfg.statuspage_strict = false) :
    ∃ res, (freshPath cfg notifier index_data mb lb w rs stage rid ik xk now run_id).1
        = .ok res
      ∧ res.statuspage_posted = false
      ∧ res.statuspage_error = some notifyFailedMsg
      ∧ res.deduped = false
      ∧ (freshPath cfg notifier index_data mb lb w rs stage rid ik xk now
          run_id).2.report_writes ≠ [] := by
  simp only [freshPath, freshNotify_fail notifier _ now hpost hcreate, hstrict]
  simp only [freshFinish, Bool.false_eq_true, if_false]
  exact ⟨_, rfl, rfl, rfl, rfl, by simp⟩

theorem dedupePath_notify_fail (cfg : Config) (notifier : NotifierBehavior)
    (r : IndexRecord) (ik xk : String) (now : Int)
    (hpost : notifier.post_update = .error ()) :
    (dedupePath cfg notifier r ik xk now).2.index_writes = []
    ∧ (dedupePath cfg notifier r ik xk now).2.report_writes = []
    ∧ (cfg.statuspage_strict = true →
        0 < (dedupePath cfg notifier r ik xk now).2.post_update_calls →
        (dedupePath cfg notifier r ik xk now).1 = .error .notifyFailed)
    ∧ (dedupePath cfg notifier r ik xk now).2.create_incident_calls = 0 := by
  cases hc : (decide ((indexStatus (some r)).incident_id ≠ "")
      && shouldPostDedupeUpdate r now cfg.status_update_min_seconds) with
  | false =>
      simp only [dedupePath, hc]
      refine ⟨?_, ?_, ?_, ?_⟩ <;>
        first
          | rfl
          | simp [emptyEffects]
          | (intro h1 h2; rfl)
  | true =>
      simp only [dedupePath, hc, hpost]
      cases hs : cfg.statuspage_strict with
      | true =>
          try simp only [hs]
          refine ⟨?_, ?_, ?_, ?_⟩ <;>
            first
              | rfl
              | simp [emptyEffects]
              | (intro h1 h2; rfl)
      | false =>
          try simp only [hs]
          refine ⟨?_, ?_, ?_, ?_⟩ <;>
            first
              | rfl
              | simp [emptyEffects]
              | (intro h1 h2; rfl)

theorem dedupePath_fail_result (cfg : Config) (notifier : NotifierBehavior)
    (r : IndexRecord) (ik xk : String) (now : Int)
    (hpost : notifier.post_update = .error ())
    (hinc : (indexStatus (some r)).incident_id ≠ "")
    (hsp : shouldPostDedupeUpdate r now cfg.status_update_min_seconds = true) :
    (cfg.statuspage_strict = false →
      (dedupePath cfg notifier r ik xk now).1
        = .ok (dedupeResult r ik (indexStatuspageUrl (some r)) false (some notifyFailedMsg)))
    ∧ (cfg.statuspage_strict = true →
      (dedupePath cfg notifier r ik xk now).1 = .error .notifyFailed) := by
  have hc : (decide ((indexStatus (some r)).incident_id ≠ "")
      && shouldPostDedupeUpdate r now cfg.status_update_min_seconds) = true := by
    simp [hinc, hsp]
  constructor
  · intro hs
    simp only [dedupePath, hc, hpost, hs]
    simp
  · intro hs
    simp only [dedupePath, hc, hpost, hs]
    simp

/-- C2: with the notifier failing: on the fresh path, soft mode still
returns a result with `statuspage_posted = false` and the fixed non-empty
error string and still persists the report, while strict mode raises; on
the dedupe-hit path with a throttled re-notify attempted, soft mode
likewise returns with `posted = false` and the error string, and strict
mode raises. -/
theorem investigate_notify_failure (cfg : Config) (notifier : NotifierBehavior)
    (index_data : Option IndexRecord) (mb : Except Unit MetricsResponse)
    (lb : Except Unit (List LogEvent)) (w : Int) (reason stage rid : String)
    (force : Bool) (now : Int) (run_id : String)
    (hpost : notifier.post_update = .error ())
    (hcreate : notifier.create_incident = .error ()) :
    ((force = true ∨ isDedupeHitOpt index_data now cfg.ttl_seconds = false) →
      (cfg.statuspage_strict = false →
        ∃ res, (investigate cfg notifier index_data mb lb w reason stage rid force now
              run_id).1 = .ok res
          ∧ res.statuspage_posted = false
          ∧ res.statuspage_error = some notifyFailedMsg
          ∧ notifyFailedMsg ≠ ""
          ∧ (investigate cfg notifier index_data mb lb w reason stage rid force now
              run_id).2.report_writes ≠ [])
      ∧ (cfg.statuspage_strict = true →
        (investigate cfg notifier index_data mb lb w reason stage rid force now
          run_id).1 = .error .notifyFailed))
    ∧ (∀ r, index_data = some r → force = false →
        isDedupeHit r now cfg.ttl_seconds = true →
        (indexStatus (some r)).incident_id ≠ "" →
        shouldPostDedupeUpdate r now cfg.status_update_min_seconds = true →
        (cfg.statuspage_strict = false →
          ∃ res, (investigate cfg notifier index_data mb lb w reason stage rid force now
                run_id).1 = .ok res
            ∧ res.statuspage_posted = false
            ∧ res.statuspage_error = some notifyFailedMsg)
        ∧ (cfg.statuspage_strict = true →
          (investigate cfg notifier index_data mb lb w reason stage rid force now
            run_id).1 = .error .notifyFailed)) := by
  constructor
  · intro hfresh
    rw [investigate_fresh_eq cfg notifier index_data mb lb w reason stage rid force now
      run_id hfresh]
    constructor
    · intro hs
      obtain ⟨res, h1, h2, h3, _hd, h5⟩ :=
        freshPath_fail_soft cfg notifier index_data mb lb w
          (sanitizeReasonForStorage reason) stage rid
          (buildIncidentKey stage w (normalizeReasonForKey reason) now cfg.bucket_seconds)
          (indexKeyFor cfg
            (buildIncidentKey stage w (normalizeReasonForKey reason) now cfg.bucket_seconds))
          now run_id hpost hcreate hs
      exact ⟨res, h1, h2, h3, by simp [notifyFailedMsg], h5⟩
    · intro hs
      exact (freshPath_fail_strict cfg notifier index_data mb lb w
        (sanitizeReasonForStorage reason) stage rid
        (buildIncidentKey stage w (normalizeReasonForKey reason) now cfg.bucket_seconds)
        (indexKeyFor cfg
          (buildIncidentKey stage w (normalizeReasonForKey reason) now cfg.bucket_seconds))
        now run_id hpost hcreate hs).1
  · rintro r rfl rfl hhit hinc hsp
    rw [investigate_dedupe_eq cfg notifier r mb lb w reason stage rid now run_id hhit]
    obtain ⟨hsoft, hstrict⟩ :=
      dedupePath_fail_result cfg notifier r
        (buildIncidentKey stage w (normalizeReasonForKey reason) now cfg.bucket_seconds)
        (indexKeyFor cfg
          (buildIncidentKey stage w (normalizeReasonForKey reason) now cfg.bucket_seconds))
        now hpost hinc hsp
    constructor
    · intro hs
      exact ⟨_, hsoft hs, rfl, rfl⟩
    · exact hstrict

/-- C10: with a failing notifier, the dedupe-hit path performs no index
(or report) write at all, and in strict mode any attempted notifier call
aborts the investigation before any report or index object is written,
leaving the object store untouched. -/
theorem investigate_notify_failure_atomicity (cfg : Config)
    (notifier : NotifierBehavior) (index_data : Option IndexRecord)
    (mb : Except Unit MetricsResponse) (lb : Except Unit (List LogEvent))
    (w : Int) (reason stage rid : String) (force : Bool) (now : Int) (run_id : String)
    (hpost : notifier.post_update = .error ())
    (hcreate : notifier.create_incident = .error ()) :
    (∀ r, index_data = some r → force = false →
      isDedupeHit r now cfg.ttl_seconds = true →
      (investigate cfg notifier index_data mb lb w reason stage rid force now
        run_id).2.index_writes = []
      ∧ (investigate cfg notifier index_data mb lb w reason stage rid force now
        run_id).2.report_writes = [])
    ∧ (cfg.statuspage_strict = true →
      0 < (investigate cfg notifier index_data mb lb w reason stage rid force now
            run_id).2.post_update_calls
          + (investigate cfg notifier index_data mb lb w reason stage rid force now
            run_id).2.create_incident_calls →
      (investigate cfg notifier index_data mb lb w reason stage rid force now
        run_id).1 = .error .notifyFailed
      ∧ (investigate cfg notifier index_data mb lb w reason stage rid force now
        run_id).2.index_writes = []
      ∧ (investigate cfg notifier index_data mb lb w reason stage rid force now
        run_id).2.report_writes = []) := by
  constructor
  · rintro r rfl rfl hhit
    rw [investigate_dedupe_eq cfg notifier r mb lb w reason stage rid now run_id hhit]
    obtain ⟨h1, h2, _h3, _h4⟩ :=
      dedupePath_notify_fail cfg notifier r
        (buildIncidentKey stage w (normalizeReasonForKey reason) now cfg.bucket_seconds)
        (indexKeyFor cfg
          (buildIncidentKey stage w (normalizeReasonForKey reason) now cfg.bucket_seconds))
        now hpost
    exact ⟨h1, h2⟩
  · intro hs hcalls
    by_cases hdedupe : ∃ r, index_data = some r ∧ force = false
        ∧ isDedupeHit r now cfg.ttl_seconds = true
    · obtain ⟨r, rfl, rfl, hhit⟩ := hdedupe
      rw [investigate_dedupe_eq cfg notifier r mb lb w reason stage rid now run_id hhit] at *
      obtain ⟨h1, h2, h3, h4⟩ :=
        dedupePath_notify_fail cfg notifier r
          (buildIncidentKey stage w (normalizeReasonForKey reason) now cfg.bucket_seconds)
          (indexKeyFor cfg
            (buildIncidentKey stage w (normalizeReasonForKey reason) now cfg.bucket_seconds))
          now hpost
      refine ⟨h3 hs ?_, h1, h2⟩
      omega
    · have hfresh : force = true ∨ isDedupeHitOpt index_data now cfg.ttl_seconds = false := by
        cases index_data with
        | none => exact Or.inr rfl
        | some r =>
            cases hf : force with
            | true => exact Or.inl rfl
            | false =>
                cases hh : isDedupeHit r now cfg.ttl_seconds with
                | false => exact Or.inr (by simp [isDedupeHitOpt, hh])
                | true => exact absurd ⟨r, rfl, hf ▸ rfl, hh⟩ hdedupe
      rw [investigate_fresh_eq cfg notifier index_data mb lb w reason stage rid force now
        run_id hfresh]
      obtain ⟨h1, h2, h3⟩ :=
        freshPath_fail_strict cfg notifier index_data mb lb w
          (sanitizeReasonForStorage reason) stage rid
          (buildIncidentKey stage w (normalizeReasonForKey reason) now cfg.bucket_seconds)
          (indexKeyFor cfg
            (buildIncidentKey stage w (normalizeReasonForKey reason) now cfg.bucket_seconds))
          now run_id hpost hcreate hs
      exact ⟨h1, h3, h2⟩

/-! ## Concrete instances for witnesses and counterexamples -/

def cfgBase : Config :=
  { ttl_seconds := 300, bucket_seconds := 300, status_update_min_seconds := 600,
    statuspage_strict := false, s3_pfx := "decisiondoc-ai/",
    lambda_function_name := "", aws_lambda_function_name := "",
    http_api_id := "", log_group := "" }

def cfgStrict : Config := { cfgBase with statuspage_strict := true }

def stOpen : StatuspageState :=
  { incident_id := "ext-1", incident_url := some "https://stspg.example/abc",
    last_state := some "investigating", last_update_at := none }

def recHit : IndexRecord :=
  { incident_key := "inc-0123456789ab", stage := "dev", window_minutes := 30,
    reason := "api down", updated_at := some 940, ttl_seconds := 300,
    latest_report_pfx := "decisiondoc-ai/reports/incidents/inc-0123456789ab/r1/",
    summary := none, statuspage := some stOpen }

def notifierOk : NotifierBehavior :=
  { post_update := .ok (),
    create_incident := .ok { incident_id := "ext-1",
                             incident_url := "https://stspg.example/abc" } }

def notifierFail : NotifierBehavior :=
  { post_update := .error (), create_incident := .error () }

theorem dedupe_throttled_update_witness :
    (investigate cfgBase notifierOk (some recHit) (.error ()) (.error ()) 30 "api down"
      "dev" "rid-1" false 1000 "run-1").2.post_update_calls = 1 :=
  ((dedupe_throttled_update cfgBase notifierOk recHit (.error ()) (.error ()) 30
      "api down" "dev" "rid-1" 1000 "run-1" (by decide) (by decide) rfl).1
    (Or.inl (by decide))).1

theorem investigate_notify_failure_witness :
    ((investigate cfgBase notifierFail none (.error ()) (.error ()) 30 "api down"
        "dev" "rid-1" false 1000 "run-1").1.map
      (fun res => (res.statuspage_posted, res.statuspage_error))).toOption
      = some (false, some notifyFailedMsg)
    ∧ (investigate cfgBase notifierFail none (.error ()) (.error ()) 30 "api down"
        "dev" "rid-1" false 1000 "run-1").2.report_writes.isEmpty = false := by
  obtain ⟨res, h1, h2, h3, _h4, h5⟩ :=
    ((investigate_notify_failure cfgBase notifierFail none (.error ()) (.error ()) 30
      "api down" "dev" "rid-1" false 1000 "run-1" rfl rfl).1 (Or.inr rfl)).1 rfl
  constructor
  · rw [h1]
    simp [Except.map, Except.toOption, h2, h3]
  · cases hl : (investigate cfgBase notifierFail none (.error ()) (.error ()) 30
        "api down" "dev" "rid-1" false 1000 "run-1").2.report_writes with
    | nil => exact absurd hl h5
    | cons a t => rfl

theorem investigate_notify_failure_atomicity_witness :
    (investigate cfgStrict notifierFail (some recHit) (.error ()) (.error ()) 30
      "api down" "dev" "rid-1" false 1000 "run-1").2.index_writes = []
    ∧ (investigate cfgStrict notifierFail (some recHit) (.error ()) (.error ()) 30
      "api down" "dev" "rid-1" false 1000 "run-1").2.report_writes = [] :=
  (investigate_notify_failure_atomicity cfgStrict notifierFail (some recHit) (.error ())
    (.error ()) 30 "api down" "dev" "rid-1" false 1000 "run-1" rfl rfl).1
    recHit rfl rfl (by decide)

/-- Behavior of the dedupe-hit path common to all notifier outcomes:
no telemetry queries, every returned result is the cached one
(`deduped = true`, stored summary, stored report pointer), and a raise
happens only in strict mode. -/
theorem dedupePath_spec (cfg : Config) (notifier : NotifierBehavior)
    (r : IndexRecord) (ik xk : String) (now : Int) :
    (dedupePath cfg notifier r ik xk now).2.metrics_queries = 0
    ∧ (dedupePath cfg notifier r ik xk now).2.log_queries = 0
    ∧ (∀ res, (dedupePath cfg notifier r ik xk now).1 = .ok res →
        res.deduped = true ∧ res.summary = r.summary
        ∧ res.report_s3_key = dedupeReportKey r
        ∧ res.statuspage_incident_url = indexStatuspageUrl (some r)
        ∧ res.incident_key = ik)
    ∧ ((dedupePath cfg notifier r ik xk now).1 = .error .notifyFailed →
        cfg.statuspage_strict = true) := by
  cases hc : (decide ((indexStatus (some r)).incident_id ≠ "")
      && shouldPostDedupeUpdate r now cfg.status_update_min_seconds) with
  | false =>
      simp only [dedupePath, hc]
      refine ⟨rfl, rfl, ?_, ?_⟩ <;> simp [dedupeResult]
  | true =>
      cases hp : notifier.post_update with
      | ok u =>
          simp only [dedupePath, hc, hp]
          refine ⟨rfl, rfl, ?_, ?_⟩ <;> simp [dedupeResult]
      | error u =>
          simp only [dedupePath, hc, hp]
          cases hs : cfg.statuspage_strict with
          | true =>
              refine ⟨rfl, rfl, ?_, ?_⟩ <;> simp [dedupeResult]
          | false =>
              refine ⟨rfl, rfl, ?_, ?_⟩ <;> simp [dedupeResult]

/-- C4 (amended): with `force=false` and a within-TTL index record, the
call performs zero metrics and zero log queries, any returned result is
`deduped=true` with the cached summary and the recorded report pointer,
and the only way not to return is a strict-mode notify failure. -/
theorem investigate_dedupe_within_ttl (cfg : Config) (notifier : NotifierBehavior)
    (r : IndexRecord) (mb : Except Unit MetricsResponse)
    (lb : Except Unit (List LogEvent)) (w : Int) (reason stage rid : String)
    (now : Int) (run_id : String)
    (hhit : isDedupeHit r now cfg.ttl_seconds = true) :
    (investigate cfg notifier (some r) mb lb w reason stage rid false now
      run_id).2.metrics_queries = 0
    ∧ (investigate cfg notifier (some r) mb lb w reason stage rid false now
      run_id).2.log_queries = 0
    ∧ (∀ res, (investigate cfg notifier (some r) mb lb w reason stage rid false now
          run_id).1 = .ok res →
        res.deduped = true ∧ res.summary = r.summary
        ∧ res.report_s3_key = dedupeReportKey r)
    ∧ ((investigate cfg notifier (some r) mb lb w reason stage rid false now
        run_id).1 = .error .notifyFailed → cfg.statuspage_strict = true) := by
  rw [investigate_dedupe_eq cfg notifier r mb lb w reason stage rid now run_id hhit]
  obtain ⟨h1, h2, h3, h4⟩ :=
    dedupePath_spec cfg notifier r
      (buildIncidentKey stage w (normalizeReasonForKey reason) now cfg.bucket_seconds)
      (indexKeyFor cfg
        (buildIncidentKey stage w (normalizeReasonForKey reason) now cfg.bucket_seconds))
      now
  exact ⟨h1, h2, fun res h => ⟨(h3 res h).1, (h3 res h).2.1, (h3 res h).2.2.1⟩, h4⟩

theorem investigate_dedupe_within_ttl_witness :
    (investigate cfgBase notifierOk (some recHit) (.error ()) (.error ()) 30 "api down"
      "dev" "rid-1" false 1000 "run-1").2.metrics_queries = 0
    ∧ (investigate cfgBase notifierOk (some recHit) (.error ()) (.error ()) 30 "api down"
      "dev" "rid-1" false 1000 "run-1").2.log_queries = 0 :=
  ⟨(investigate_dedupe_within_ttl cfgBase notifierOk recHit (.error ()) (.error ()) 30
      "api down" "dev" "rid-1" 1000 "run-1" (by decide)).1,
   (investigate_dedupe_within_ttl cfgBase notifierOk recHit (.error ()) (.error ()) 30
      "api down" "dev" "rid-1" 1000 "run-1" (by decide)).2.1⟩

/-- C4 counterexample: a within-TTL dedupe hit with `force=false`, an open
external incident, a due throttle, a failing notifier and strict mode set:
the claim's premise holds, yet `investigate` raises instead of returning
`deduped=true`. -/
theorem investigate_dedupe_within_ttl_cex :
    isDedupeHit recHit 1000 cfgStrict.ttl_seconds = true
    ∧ (investigate cfgStrict notifierFail (some recHit) (.error ()) (.error ()) 30
        "api down" "dev" "rid-1" false 1000 "run-1").1 = .error .notifyFailed
    ∧ ∀ res, (investigate cfgStrict notifierFail (some recHit) (.error ()) (.error ()) 30
        "api down" "dev" "rid-1" false 1000 "run-1").1 ≠ .ok res := by
  refine ⟨by decide, ?_, ?_⟩
  · rw [investigate_dedupe_eq cfgStrict notifierFail recHit (.error ()) (.error ()) 30
      "api down" "dev" "rid-1" 1000 "run-1" (by decide)]
    exact (dedupePath_fail_result cfgStrict notifierFail recHit _ _ 1000 rfl (by decide)
      (by decide)).2 rfl
  · intro res
    rw [investigate_dedupe_eq cfgStrict notifierFail recHit (.error ()) (.error ()) 30
      "api down" "dev" "rid-1" 1000 "run-1" (by decide)]
    rw [(dedupePath_fail_result cfgStrict notifierFail recHit _ _ 1000 rfl (by decide)
      (by decide)).2 rfl]
    simp

/-- C5 counterexample: same dedupe-hit setup with a due throttle but a
failing notifier in soft mode: exactly one `post_update` call is made,
yet no index record is persisted, so `last_update_at` does not advance. -/
theorem dedupe_throttled_update_cex :
    isDedupeHit recHit 1000 cfgBase.ttl_seconds = true
    ∧ (indexStatus (some recHit)).incident_id ≠ ""
    ∧ (indexStatus (some recHit)).last_update_at = none
    ∧ (investigate cfgBase notifierFail (some recHit) (.error ()) (.error ()) 30
        "api down" "dev" "rid-1" false 1000 "run-1").2.post_update_calls = 1
    ∧ (investigate cfgBase notifierFail (some recHit) (.error ()) (.error ()) 30
        "api down" "dev" "rid-1" false 1000 "run-1").2.index_writes = [] := by
  exact ⟨by decide, by decide, by decide, by decide, by decide⟩

theorem metricsFunctionName_ne (cfg : Config) (stage : String) :
    metricsFunctionName cfg stage ≠ "" := by
  unfold metricsFunctionName
  split
  · assumption
  split
  · assumption
  · intro h
    have hl := congrArg String.length h
    rw [String.length_append] at hl
    have h15 : ("decisiondoc-ai-" : String).length = 15 := by decide
    have h0 : ("" : String).length = 0 := by decide
    rw [h15, h0] at hl
    omega

/-- `_collect_metrics` always issues exactly one backend query (the
compute-unit identifier always resolves, by the stage-derived fallback). -/
theorem collectMetrics_queries_one (cfg : Config) (stage : String)
    (backend : Except Unit MetricsResponse) :
    (collectMetrics cfg stage backend).2 = 1 := by
  unfold collectMetrics
  rw [if_neg (metricsFunctionName_ne cfg stage)]
  cases backend <;> rfl

theorem freshNotify_calls_inc (notifier : NotifierBehavior) (status : StatuspageState)
    (now : Int) (hinc : status.incident_id ≠ "") :
    (freshNotify notifier status now).2 = (1, 0) := by
  unfold freshNotify
  rw [if_pos hinc]
  cases notifier.post_update <;> rfl

/-- Behavior of the fresh path common to all notifier outcomes: one
metrics query, every returned result has `deduped = false`, a recorded
external incident is reused via `post_update` (never `create_incident`),
and a raise happens only in strict mode. -/
theorem freshPath_spec (cfg : Config) (notifier : NotifierBehavior)
    (index_data : Option IndexRecord) (mb : Except Unit MetricsResponse)
    (lb : Except Unit (List LogEvent)) (w : Int) (rs stage rid ik xk : String)
    (now : Int) (run_id : String) :
    (freshPath cfg notifier index_data mb lb w rs stage rid ik xk now
      run_id).2.metrics_queries = 1
    ∧ (∀ res, (freshPath cfg notifier index_data mb lb w rs stage rid ik xk now
          run_id).1 = .ok res → res.deduped = false)
    ∧ ((indexStatus index_data).incident_id ≠ "" →
        (freshPath cfg notifier index_data mb lb w rs stage rid ik xk now
          run_id).2.create_incident_calls = 0
        ∧ (freshPath cfg notifier index_data mb lb w rs stage rid ik xk now
          run_id).2.post_update_calls = 1)
    ∧ ((freshPath cfg notifier index_data mb lb w rs stage rid ik xk now
        run_id).1 = .error .notifyFailed → cfg.statuspage_strict = true) := by
  cases hn : freshNotify notifier (indexStatus index_data) now with
  | mk exc pcc =>
    have hcalls : (indexStatus index_data).incident_id ≠ "" → pcc = (1, 0) := by
      intro hinc
      have := freshNotify_calls_inc notifier (indexStatus index_data) now hinc
      rw [hn] at this
      exact this
    cases exc with
    | error u =>
        cases hs : cfg.statuspage_strict with
        | true =>
            refine ⟨?_, ?_, ?_, ?_⟩
            · simp [freshPath, hn, hs, collectMetrics_queries_one]
            · simp [freshPath, hn, hs]
            · intro hinc
              have hp := hcalls hinc
              simp [freshPath, hn, hs, hp]
            · simp [freshPath, hn, hs]
        | false =>
            refine ⟨?_, ?_, ?_, ?_⟩
            · simp [freshPath, hn, hs, freshFinish, collectMetrics_queries_one]
            · intro res h
              simp only [freshPath, hn, hs, Bool.false_eq_true, if_false,
                freshFinish, Except.ok.injEq] at h
              rw [← h]
            · intro hinc
              have hp := hcalls hinc
              simp [freshPath, hn, hs, hp, freshFinish]
            · simp [freshPath, hn, hs, freshFinish]
    | ok statusU =>
        refine ⟨?_, ?_, ?_, ?_⟩
        · simp [freshPath, hn, freshFinish, collectMetrics_queries_one]
        · intro res h
          simp only [freshPath, hn, freshFinish, Except.ok.injEq] at h
          rw [← h]
        · intro hinc
          have hp := hcalls hinc
          simp [freshPath, hn, hp, freshFinish]
        · simp [freshPath, hn, freshFinish]

theorem fresh_of_not_dedupe {index_data : Option IndexRecord} {force : Bool}
    {now ttl : Int}
    (h : ¬ ∃ r, index_data = some r ∧ force = false ∧ isDedupeHit r now ttl = true) :
    force = true ∨ isDedupeHitOpt index_data now ttl = false := by
  cases index_data with
  | none => exact Or.inr rfl
  | some r =>
      cases hf : force with
      | true => exact Or.inl rfl
      | false =>
          cases hh : isDedupeHit r now ttl with
          | false => exact Or.inr (by simp [isDedupeHitOpt, hh])
          | true => exact absurd ⟨r, rfl, hf ▸ rfl, hh⟩ h

/-- C6 (amended): `force=true` always takes the fresh path: one metrics
backend query is issued, any returned result has `deduped=false`, a
recorded external incident is reused via exactly one `post_update` (and
no `create_incident`), and the only way not to return a result is a
strict-mode notify failure. -/
theorem investigate_force_bypass (cfg : Config) (notifier : NotifierBehavior)
    (index_data : Option IndexRecord) (mb : Except Unit MetricsResponse)
    (lb : Except Unit (List LogEvent)) (w : Int) (reason stage rid : String)
    (now : Int) (run_id : String) :
    (investigate cfg notifier index_data mb lb w reason stage rid true now
      run_id).2.metrics_queries = 1
    ∧ (∀ res, (investigate cfg notifier index_data mb lb w reason stage rid true now
          run_id).1 = .ok res → res.deduped = false)
    ∧ (∀ r, index_data = some r → (indexStatus (some r)).incident_id ≠ "" →
        (investigate cfg notifier index_data mb lb w reason stage rid true now
          run_id).2.create_incident_calls = 0
        ∧ (investigate cfg notifier index_data mb lb w reason stage rid true now
          run_id).2.post_update_calls = 1)
    ∧ ((investigate cfg notifier index_data mb lb w reason stage rid true now
        run_id).1 = .error .notifyFailed → cfg.statuspage_strict = true) := by
  rw [investigate_fresh_eq cfg notifier index_data mb lb w reason stage rid true now
    run_id (Or.inl rfl)]
  obtain ⟨h1, h2, h3, h4⟩ :=
    freshPath_spec cfg notifier index_data mb lb w
      (sanitizeReasonForStorage reason) stage rid
      (buildIncidentKey stage w (normalizeReasonForKey reason) now cfg.bucket_seconds)
      (indexKeyFor cfg
        (buildIncidentKey stage w (normalizeReasonForKey reason) now cfg.bucket_seconds))
      now run_id
  refine ⟨h1, h2, ?_, h4⟩
  rintro r rfl hinc
  exact h3 hinc

/-- C6 counterexample: `force=true` against a within-TTL record with an
open incident, a failing notifier and strict mode: the claim's premise
holds, yet `investigate` raises, so no result with `deduped=false` is
returned. -/
theorem investigate_force_bypass_cex :
    isDedupeHit recHit 1000 cfgStrict.ttl_seconds = true
    ∧ (investigate cfgStrict notifierFail (some recHit) (.error ()) (.error ()) 30
        "api down" "dev" "rid-1" true 1000 "run-1").1 = .error .notifyFailed
    ∧ ∀ res, (investigate cfgStrict notifierFail (some recHit) (.error ()) (.error ()) 30
        "api down" "dev" "rid-1" true 1000 "run-1").1 ≠ .ok res := by
  have h2 : (investigate cfgStrict notifierFail (some recHit) (.error ()) (.error ()) 30
      "api down" "dev" "rid-1" true 1000 "run-1").1 = .error .notifyFailed := by
    rw [investigate_fresh_eq cfgStrict notifierFail (some recHit) (.error ()) (.error ())
      30 "api down" "dev" "rid-1" true 1000 "run-1" (Or.inl rfl)]
    exact (freshPath_fail_strict cfgStrict notifierFail (some recHit) (.error ())
      (.error ()) 30 (sanitizeReasonForStorage "api down") "dev" "rid-1" _ _ 1000
      "run-1" rfl rfl rfl).1
  refine ⟨by decide, h2, ?_⟩
  intro res h
  rw [h2] at h
  exact Except.noConfusion h

theorem freshPath_reason (cfg : Config) (notifier : NotifierBehavior)
    (index_data : Option IndexRecord) (mb : Except Unit MetricsResponse)
    (lb : Except Unit (List LogEvent)) (w : Int) (rs stage rid ik xk : String)
    (now : Int) (run_id : String) :
    (∀ p rep, (p, rep) ∈ (freshPath cfg notifier index_data mb lb w rs stage rid ik xk
        now run_id).2.report_writes → rep.reason = rs)
    ∧ (∀ k x, (k, x) ∈ (freshPath cfg notifier index_data mb lb w rs stage rid ik xk
        now run_id).2.index_writes → x.reason = rs) := by
  cases hn : freshNotify notifier (indexStatus index_data) now with
  | mk exc pcc =>
    cases exc with
    | error u =>
        cases hs : cfg.statuspage_strict with
        | true =>
            constructor <;>
              (intro a b hmem
               simp [freshPath, hn, hs] at hmem)
        | false =>
            constructor <;>
              (intro a b hmem
               simp [freshPath, hn, hs, freshFinish] at hmem) <;>
              [rcases hmem with ⟨_, rfl⟩ | ⟨_, rfl⟩; rcases hmem with ⟨_, rfl⟩] <;>
              rfl
    | ok statusU =>
        constructor <;>
          (intro a b hmem
           simp [freshPath, hn, freshFinish] at hmem) <;>
          [rcases hmem with ⟨_, rfl⟩ | ⟨_, rfl⟩; rcases hmem with ⟨_, rfl⟩] <;>
          rfl

theorem dedupePath_reason (cfg : Config) (notifier : NotifierBehavior)
    (r : IndexRecord) (ik xk : String) (now : Int) :
    (dedupePath cfg notifier r ik xk now).2.report_writes = []
    ∧ ∀ k x, (k, x) ∈ (dedupePath cfg notifier r ik xk now).2.index_writes →
        x.reason = r.reason := by
  cases hc : (decide ((indexStatus (some r)).incident_id ≠ "")
      && shouldPostDedupeUpdate r now cfg.status_update_min_seconds) with
  | false =>
      refine ⟨by simp only [dedupePath, hc]; simp [emptyEffects], ?_⟩
      intro k x hmem
      simp only [dedupePath, hc] at hmem
      simp [emptyEffects] at hmem
  | true =>
      cases hp : notifier.post_update with
      | ok u =>
          refine ⟨by simp only [dedupePath, hc, hp]; simp [emptyEffects], ?_⟩
          intro k x hmem
          simp only [dedupePath, hc, hp] at hmem
          simp [emptyEffects] at hmem
          rcases hmem with ⟨_, rfl⟩
          rfl
      | error u =>
          cases hs : cfg.statuspage_strict with
          | true =>
              refine ⟨by simp only [dedupePath, hc, hp, hs]; simp [emptyEffects], ?_⟩
              intro k x hmem
              simp only [dedupePath, hc, hp, hs] at hmem
              simp [emptyEffects] at hmem
          | false =>
              refine ⟨by simp only [dedupePath, hc, hp, hs]; simp [emptyEffects], ?_⟩
              intro k x hmem
              simp only [dedupePath, hc, hp, hs] at hmem
              simp [emptyEffects] at hmem

/-- C1: every Report and every IndexRecord that `investigate` persists
carries `_sanitize_reason_for_storage(reason)` as its `reason` field (for
the dedupe-path index rewrite this uses the store invariant that the
record found under the reason-derived key already carries the sanitized
reason, which every index write maintains); consequently a token
containing any character outside the storage alphabet — as
credential-looking tokens do — never occurs verbatim in a persisted
`reason`. -/
theorem investigate_persists_sanitized_reason (cfg : Config)
    (notifier : NotifierBehavior) (index_data : Option IndexRecord)
    (mb : Except Unit MetricsResponse) (lb : Except Unit (List LogEvent))
    (w : Int) (reason stage rid : String) (force : Bool) (now : Int) (run_id : String)
    (hstore : ∀ r, index_data = some r → r.reason = sanitizeReasonForStorage reason) :
    (∀ p rep, (p, rep) ∈ (investigate cfg notifier index_data mb lb w reason stage rid
        force now run_id).2.report_writes →
      rep.reason = sanitizeReasonForStorage reason)
    ∧ (∀ k x, (k, x) ∈ (investigate cfg notifier index_data mb lb w reason stage rid
        force now run_id).2.index_writes →
      x.reason = sanitizeReasonForStorage reason)
    ∧ (∀ t : List Char, (∃ c ∈ t, isAllowedChar c = false) →
        ¬ occursIn t (sanitizeReasonForStorage reason).data) := by
  have htok : ∀ t : List Char, (∃ c ∈ t, isAllowedChar c = false) →
      ¬ occursIn t (sanitizeReasonForStorage reason).data := by
    rintro t ⟨c, hct, hbad⟩
    exact sanitize_no_bad_token reason hct hbad
  by_cases hd : ∃ r, index_data = some r ∧ force = false
      ∧ isDedupeHit r now cfg.ttl_seconds = true
  · obtain ⟨r, rfl, rfl, hhit⟩ := hd
    rw [investigate_dedupe_eq cfg notifier r mb lb w reason stage rid now run_id hhit]
    obtain ⟨hrep, hidx⟩ := dedupePath_reason cfg notifier r
      (buildIncidentKey stage w (normalizeReasonForKey reason) now cfg.bucket_seconds)
      (indexKeyFor cfg
        (buildIncidentKey stage w (normalizeReasonForKey reason) now cfg.bucket_seconds))
      now
    refine ⟨?_, ?_, htok⟩
    · intro p rep hmem
      rw [hrep] at hmem
      cases hmem
    · intro k x hmem
      rw [hidx k x hmem, hstore r rfl]
  · rw [investigate_fresh_eq cfg notifier index_data mb lb w reason stage rid force now
      run_id (fresh_of_not_dedupe hd)]
    obtain ⟨hrep, hidx⟩ :=
      freshPath_reason cfg notifier index_data mb lb w
        (sanitizeReasonForStorage reason) stage rid
        (buildIncidentKey stage w (normalizeReasonForKey reason) now cfg.bucket_seconds)
        (indexKeyFor cfg
          (buildIncidentKey stage w (normalizeReasonForKey reason) now cfg.bucket_seconds))
        now run_id
    exact ⟨hrep, hidx, htok⟩

theorem investigate_persists_sanitized_reason_witness :
    ((investigate cfgBase notifierOk none (.error ()) (.error ()) 30
        "API down! Token=aZ9" "dev" "rid-1" false 1000 "run-1").2.report_writes.all
      (fun pr => decide (pr.2.reason
        = sanitizeReasonForStorage "API down! Token=aZ9"))) = true := by
  rw [List.all_eq_true]
  intro pr hmem
  have h := (investigate_persists_sanitized_reason cfgBase notifierOk none (.error ())
    (.error ()) 30 "API down! Token=aZ9" "dev" "rid-1" false 1000 "run-1"
    (fun r hr => Option.noConfusion hr)).1 pr.1 pr.2
    (by rw [Prod.mk.eta]; exact hmem)
  simp [h]
